import Mathlib

/-!
# Service Sentinel and probe executor of the availability monitor

A shallow embedding of `service/dao/servicesentinel.go` (the per-monitor maps of
`ServiceSentinel`, `NewServiceSentinel`, `Monitors`, `OnMonitorUpdate`,
`OnMonitorDelete`, `LoadStats`, `getStateStr` and the body of the `worker` loop) and
of `doTask` in `cmd/agent/main.go`, followed by the properties of the rolling window,
the today-stats, the notification gate, the SSL certificate handling, the catalog
operations, the statistics loader and the probe results.

Modelling conventions.

* A Go `map[uint64]V` is an association list with at most one live entry per key;
  reading a missing key yields the zero value of `V`, as in Go.  The order of `range`
  over a map is not specified: loops whose result does not depend on it run over the
  keys in list order, and `Monitors` takes the order as an input.
* `uint64` and `int` values are natural numbers.  The only arithmetic on them is
  `++` (once per report) and `currentUp * 100`, where `currentUp` is bounded by the
  length of a slice, so 64-bit wrap-around cannot occur and is not modelled.
* `float32` delays are exact rationals.
* A run-time panic (nil pointer dereference, slice index out of range) is `none`.
* The clock, `time.Parse` and `Time.Format` belong to the Go library.  The values
  read from the clock during one iteration are inputs of the step (`Tick`), and the
  two library functions are parameters (`TimeLib`).  Calendar days have 24 hours.
* The store (`DB.Find`, `DB.Create`) and the notification sink (`SendNotification`)
  are external; the tables read are inputs (`Store`) and a step returns what it hands
  to the store and the sink (`StepOutput`).  What the store does to the records it is
  handed (keys, timestamps) is not modelled.
* The cache entry of `LoadStats` is explicit state (`PageCache`).
* The I/O of a probe is an input of `doTask` (`ProbeIO`).
* Strings are sequences of characters.  `strings.HasPrefix`, `strings.HasSuffix` and
  `strings.Split` work on bytes; on valid UTF-8 and with the patterns used here the
  two views agree.
* Every method and every iteration of the worker is one atomic step: locks and the
  interleaving of goroutines inside an operation are left out.
-/

namespace Nezha

/-! ## Go maps -/

/-- Go `map[uint64]V` as an association list. -/
abbrev GoMap (V : Type) := List (Nat × V)

/-- Read of `m[k]` in comma-ok form: `none` when the key is absent. -/
def mapGet {V : Type} : GoMap V → Nat → Option V
  | [], _ => none
  | (k', v) :: rest, k => if k' = k then some v else mapGet rest k

/-- Go `delete(m, k)`. -/
def mapDelete {V : Type} (m : GoMap V) (k : Nat) : GoMap V :=
  m.filter (fun p => p.1 != k)

/-- Go `m[k] = v`. -/
def mapSet {V : Type} (m : GoMap V) (k : Nat) (v : V) : GoMap V :=
  (k, v) :: mapDelete m k

/-! ## Go library: strings and time -/

/-- Go `strings.HasPrefix`. -/
def hasPrefix (s p : String) : Bool := p.data.isPrefixOf s.data

/-- Go `strings.HasSuffix`. -/
def hasSuffix (s p : String) : Bool := p.data.isSuffixOf s.data

/-- Segments of a character list between occurrences of `sep`. -/
def splitChars (sep : Char) : List Char → List (List Char)
  | [] => [[]]
  | c :: cs =>
    if c = sep then [] :: splitChars sep cs
    else
      match splitChars sep cs with
      | [] => [[c]]
      | seg :: rest => (c :: seg) :: rest

/-- Go `strings.Split(s, sep)` for a one-character separator. -/
def stringsSplit (s : String) (sep : Char) : List String :=
  (splitChars sep s.data).map String.mk

/-- Go `time.Time`: an instant (nanoseconds counted from the zero `Time`) and the
offset of the zone it is displayed in.  `Before` and `Equal` compare instants. -/
structure GoTime where
  nanos : Int
  zoneOffset : Int
deriving DecidableEq, Repr

/-- The zero `time.Time`, which `time.Parse` returns together with an error. -/
def GoTime.zero : GoTime := { nanos := 0, zoneOffset := 0 }

/-- Go `t.Before(u)`. -/
def GoTime.Before (t u : GoTime) : Bool := decide (t.nanos < u.nanos)

/-- Go `t.Equal(u)`. -/
def GoTime.Equal (t u : GoTime) : Bool := decide (t.nanos = u.nanos)

/-- Nanoseconds in a day of 24 hours. -/
def dayNanos : Int := 86400000000000

/-- Go `t.AddDate(0, 0, days)`, with calendar days of 24 hours. -/
def GoTime.AddDays (t : GoTime) (days : Int) : GoTime :=
  { t with nanos := t.nanos + days * dayNanos }

/-- The two functions of package `time` the worker calls on certificate dates:
`parse s` is `time.Parse("2006-01-02 15:04:05 -0700 MST", s)` (`none` for an error)
and `format t` is `t.Format("2006-01-02 15:04:05")`. -/
structure TimeLib where
  parse : String → Option GoTime
  format : GoTime → String

/-- The value of `t, _ := time.Parse(...)`: the zero time on an error. -/
def TimeLib.parseOrZero (T : TimeLib) (s : String) : GoTime :=
  (T.parse s).getD GoTime.zero

/-! ## Data model -/

/-- Modelled from the spec: `model.Monitor`, declared outside the given sources; a
configuration record with an unsigned `id`, `name`, `target`, probe `type` and the
`notify` gate. -/
structure Monitor where
  ID : Nat
  Name : String
  Target : String
  Type' : Nat
  Notify : Bool
deriving DecidableEq, Repr

/-- The zero `Monitor`, read from the catalog for an absent id. -/
def Monitor.zero : Monitor :=
  { ID := 0, Name := "", Target := "", Type' := 0, Notify := false }

/-- Modelled from the spec: `pb.TaskResult`, declared outside the given sources;
`{id, type, delay, successful, data}`. -/
structure TaskResult where
  Id : Nat
  Type' : Nat
  Delay : ℚ
  Data : String
  Successful : Bool
deriving DecidableEq, Repr

/-- Modelled from the spec: `model.MonitorHistory`, declared outside the given
sources; `{monitor_id, created_at, successful, delay, data}`. -/
structure MonitorHistory where
  MonitorID : Nat
  CreatedAt : Int
  Delay : ℚ
  Data : String
  Successful : Bool
deriving DecidableEq, Repr

/-- The zero `MonitorHistory`: an empty window slot. -/
def MonitorHistory.zero : MonitorHistory :=
  { MonitorID := 0, CreatedAt := 0, Delay := 0, Data := "", Successful := false }

/-- Modelled from the spec: `model.PB2MonitorHistory`, defined outside the given
sources; the history record of a task result carries its monitor id, delay,
success flag and data. -/
def PB2MonitorHistory (r : TaskResult) : MonitorHistory :=
  { MonitorID := r.Id, CreatedAt := 0, Delay := r.Delay, Data := r.Data,
    Successful := r.Successful }

/-- The constant `_CurrentStatusSize`. -/
def CurrentStatusSize : Nat := 30

/-- The struct `ReportData`. -/
structure ReportData where
  Data : TaskResult
  Reporter : Nat
deriving DecidableEq, Repr

/-- The struct `_TodayStatsOfMonitor`. -/
structure TodayStatsOfMonitor where
  Up : Nat
  Down : Nat
  Delay : ℚ
deriving DecidableEq, Repr

/-- The per-monitor maps of the struct `ServiceSentinel` (locks and the report
channel are left out). -/
structure ServiceSentinel where
  serviceStatusToday : GoMap TodayStatsOfMonitor
  serviceCurrentStatusIndex : GoMap Nat
  serviceCurrentStatusData : GoMap (List MonitorHistory)
  latestDate : GoMap String
  lastStatus : GoMap String
  serviceResponseDataStoreCurrentUp : GoMap Nat
  serviceResponseDataStoreCurrentDown : GoMap Nat
  monitors : GoMap Monitor
  sslCertCache : GoMap String
deriving DecidableEq, Repr

/-- A call `SendNotification(text, urgent)`. -/
structure Notification where
  text : String
  urgent : Bool
deriving DecidableEq, Repr

/-- What one iteration of the worker hands to its collaborators: the slice given
to `DB.Create`, the status notification and the SSL notification. -/
structure StepOutput where
  batch : Option (List MonitorHistory)
  statusNotification : Option Notification
  sslNotification : Option Notification
deriving DecidableEq, Repr

/-- The output of an iteration that does nothing. -/
def StepOutput.empty : StepOutput :=
  { batch := none, statusNotification := none, sslNotification := none }

/-- The clock readings of one iteration: `time.Now().Format("02-Jan-06")` and the
`time.Now()` of the expiry check. -/
structure Tick where
  nowDate : String
  now : GoTime
deriving DecidableEq, Repr

/-! ## The worker -/

/-- The function `getStateStr`. -/
def getStateStr (percent : Nat) : String :=
  if percent = 0 then "无数据"
  else if percent > 95 then "良好"
  else if percent > 80 then "低可用"
  else "故障"

/-- The day-rollover reset of the today-stats followed by the today update
(worker, "写入当天状态"). -/
def updateToday (rolled : Bool) (t : TodayStatsOfMonitor) (mh : MonitorHistory) :
    TodayStatsOfMonitor :=
  let t0 : TodayStatsOfMonitor := if rolled then { Up := 0, Down := 0, Delay := 0 } else t
  if mh.Successful then
    { t0 with Delay := (t0.Delay * (t0.Up : ℚ) + mh.Delay) / ((t0.Up + 1 : Nat) : ℚ),
              Up := t0.Up + 1 }
  else
    { t0 with Down := t0.Down + 1 }

/-- The loop that recounts the filled slots of a window by success
(worker, "更新当前状态"); the result is `(currentUp, currentDown)`. -/
def recount (w : List MonitorHistory) : Nat × Nat :=
  w.foldl
    (fun acc h =>
      if h.MonitorID > 0 then
        if h.Successful then (acc.1 + 1, acc.2) else (acc.1, acc.2 + 1)
      else acc)
    (0, 0)

/-- The local `upPercent` of the worker. -/
def upPercent (currentUp currentDown : Nat) : Nat :=
  if currentDown + currentUp > 0 then currentUp * 100 / (currentDown + currentUp) else 0

/-- The SSL part of the worker ("SSL 证书报警"): the certificate cache after the
report and the local `errMsg`. -/
def sslCheck (T : TimeLib) (cache : GoMap String) (mh : MonitorHistory) (now : GoTime) :
    GoMap String × String :=
  if hasPrefix mh.Data "SSL证书错误：" then
    if !hasSuffix mh.Data "timeout" && !hasSuffix mh.Data "EOF"
        && !hasSuffix mh.Data "timed out" then
      (cache, mh.Data)
    else
      (cache, "")
  else
    let newCert := stringsSplit mh.Data '|'
    if newCert.length > 1 then
      let cache1 :=
        if (mapGet cache mh.MonitorID).getD "" = "" then mapSet cache mh.MonitorID mh.Data
        else cache
      let expiresNew := T.parseOrZero (newCert.getD 1 "")
      let errMsg1 :=
        if expiresNew.Before (now.AddDays 7) then
          "SSL证书将在七天内过期，过期时间：" ++ T.format expiresNew ++ "。"
        else ""
      let oldCert := stringsSplit ((mapGet cache1 mh.MonitorID).getD "") '|'
      let expiresOld := if oldCert.length > 1 then T.parseOrZero (oldCert.getD 1 "")
        else GoTime.zero
      let errMsg2 :=
        if oldCert.getD 0 "" ≠ newCert.getD 0 "" ∧ !expiresNew.Equal expiresOld then
          "SSL证书变更，旧：" ++ oldCert.getD 0 "" ++ ", " ++ T.format expiresOld
            ++ " 过期；新：" ++ newCert.getD 0 "" ++ ", " ++ T.format expiresNew ++ " 过期。"
        else errMsg1
      (cache1, errMsg2)
    else
      (cache, "")

/-- One iteration of the loop of `ServiceSentinel.worker` on the report `r`, with
the clock readings `c`.  `none` is a panic of the goroutine. -/
def workerStep (T : TimeLib) (ss : ServiceSentinel) (r : ReportData) (c : Tick) :
    Option (ServiceSentinel × StepOutput) :=
  if ((mapGet ss.monitors r.Data.Id).getD Monitor.zero).ID = 0 then
    some (ss, StepOutput.empty)
  else
    let mh := PB2MonitorHistory r.Data
    let id := mh.MonitorID
    -- 先查看是否到下一天
    let rolled : Bool := decide (c.nowDate ≠ (mapGet ss.latestDate id).getD "")
    let latestDate := if rolled then mapSet ss.latestDate id c.nowDate else ss.latestDate
    let currentUp0 :=
      if rolled then mapSet ss.serviceResponseDataStoreCurrentUp id 0
      else ss.serviceResponseDataStoreCurrentUp
    let currentDown0 :=
      if rolled then mapSet ss.serviceResponseDataStoreCurrentDown id 0
      else ss.serviceResponseDataStoreCurrentDown
    match mapGet ss.serviceStatusToday id with
    | none => none
    | some today =>
      let statusToday := mapSet ss.serviceStatusToday id (updateToday rolled today mh)
      -- 写入当前数据
      let window := (mapGet ss.serviceCurrentStatusData id).getD []
      let index := (mapGet ss.serviceCurrentStatusIndex id).getD 0
      if index < window.length then
        let window1 := window.set index mh
        let statusData := mapSet ss.serviceCurrentStatusData id window1
        -- 数据持久化
        let full : Bool := decide (index + 1 = CurrentStatusSize)
        let statusIndex :=
          mapSet ss.serviceCurrentStatusIndex id (if full then 0 else index + 1)
        let batch := if full then some window1 else none
        -- 更新当前状态
        let counts := recount window1
        let currentUp := mapSet currentUp0 id counts.1
        let currentDown := mapSet currentDown0 id counts.2
        let stateStr := getStateStr (upPercent counts.1 counts.2)
        let last := (mapGet ss.lastStatus id).getD ""
        let monitor := (mapGet ss.monitors id).getD Monitor.zero
        let gate : Bool := decide (stateStr = "故障" ∨ stateStr ≠ last)
        let isNeedSendNotification : Bool :=
          decide (last ≠ "" ∨ stateStr = "故障") && monitor.Notify
        let lastStatus := if gate then mapSet ss.lastStatus id stateStr else ss.lastStatus
        let statusNotification :=
          if gate && isNeedSendNotification then
            some { text := "服务监控：" ++ monitor.Name ++ " 服务状态：" ++ stateStr,
                   urgent := true : Notification }
          else none
        -- SSL 证书报警
        let ssl := sslCheck T ss.sslCertCache mh c.now
        let sslNotification :=
          if ssl.2 ≠ "" ∧ monitor.Notify then
            some { text := "服务监控：" ++ monitor.Name ++ " " ++ ssl.2,
                   urgent := true : Notification }
          else none
        some
          ({ serviceStatusToday := statusToday,
             serviceCurrentStatusIndex := statusIndex,
             serviceCurrentStatusData := statusData,
             latestDate := latestDate,
             lastStatus := lastStatus,
             serviceResponseDataStoreCurrentUp := currentUp,
             serviceResponseDataStoreCurrentDown := currentDown,
             monitors := ss.monitors,
             sslCertCache := ssl.1 },
           { batch := batch,
             statusNotification := statusNotification,
             sslNotification := sslNotification })
      else
        none

/-- The loop of `ServiceSentinel.worker` over the reports taken from the channel,
in order; the outputs of the iterations are collected in the same order. -/
def worker (T : TimeLib) :
    ServiceSentinel → List (ReportData × Tick) → Option (ServiceSentinel × List StepOutput)
  | ss, [] => some (ss, [])
  | ss, (r, c) :: rest =>
    match workerStep T ss r c with
    | none => none
    | some (ss1, out) =>
      match worker T ss1 rest with
      | none => none
      | some (ss2, outs) => some (ss2, out :: outs)

/-! ## Reads of the per-monitor maps -/

/-- The value of `ss.serviceResponseDataStoreCurrentUp[id]`. -/
def currentUpOf (ss : ServiceSentinel) (id : Nat) : Nat :=
  (mapGet ss.serviceResponseDataStoreCurrentUp id).getD 0

/-- The value of `ss.serviceResponseDataStoreCurrentDown[id]`. -/
def currentDownOf (ss : ServiceSentinel) (id : Nat) : Nat :=
  (mapGet ss.serviceResponseDataStoreCurrentDown id).getD 0

/-- The bucketed state of the counters stored for `id`: after an iteration for `id`
this is the local `stateStr` of that iteration. -/
def bucketedState (ss : ServiceSentinel) (id : Nat) : String :=
  getStateStr (upPercent (currentUpOf ss id) (currentDownOf ss id))

/-- The value of `ss.lastStatus[id]`. -/
def lastStatusOf (ss : ServiceSentinel) (id : Nat) : String :=
  (mapGet ss.lastStatus id).getD ""

/-- The value of `ss.serviceCurrentStatusData[id]` (the nil slice when absent). -/
def windowOf (ss : ServiceSentinel) (id : Nat) : List MonitorHistory :=
  (mapGet ss.serviceCurrentStatusData id).getD []

/-- The value of `ss.serviceCurrentStatusIndex[id]`. -/
def indexOf (ss : ServiceSentinel) (id : Nat) : Nat :=
  (mapGet ss.serviceCurrentStatusIndex id).getD 0

/-- The value of `ss.latestDate[id]`. -/
def latestDateOf (ss : ServiceSentinel) (id : Nat) : String :=
  (mapGet ss.latestDate id).getD ""

/-- The value of `ss.sslCertCache[id]`. -/
def sslCertOf (ss : ServiceSentinel) (id : Nat) : String :=
  (mapGet ss.sslCertCache id).getD ""

/-- The number of filled slots of a window: those with a non-zero monitor id. -/
def filledSlots (w : List MonitorHistory) : Nat :=
  w.countP (fun h => decide (h.MonitorID > 0))

/-- The persistence batches among the outputs of a run, in order. -/
def batchesOf (outs : List StepOutput) : List (List MonitorHistory) :=
  outs.filterMap (fun o => o.batch)

/-- The state of monitor `k` after `n` reports on a freshly allocated window: the
monitor is known, its today-stats exist, the window has 30 slots of which the first
`min n 30` hold records of `k` and the others are empty, the index is `n mod 30`,
and, once a report has been processed, the stored counters add up to the number
of filled slots. -/
def WindowInv (k n : Nat) (ss : ServiceSentinel) : Prop :=
  (∃ mon, mapGet ss.monitors k = some mon ∧ mon.ID ≠ 0) ∧
  (∃ today, mapGet ss.serviceStatusToday k = some today) ∧
  (windowOf ss k).length = CurrentStatusSize ∧
  (∀ j, j < CurrentStatusSize →
    ((windowOf ss k).getD j MonitorHistory.zero).MonitorID = if j < n then k else 0) ∧
  indexOf ss k = n % CurrentStatusSize ∧
  (0 < n → currentUpOf ss k + currentDownOf ss k = filledSlots (windowOf ss k))

/-- A toy instance of the time library: it parses four fixed strings, with instants
counted in days from an arbitrary origin; the clock of `exampleReport` stands at day
900 (taken to be 2026-11-04 00:00 UTC). -/
def exampleLib : TimeLib :=
  { parse := fun s =>
      if s = "2099-01-01 00:00:00 +0000 UTC" then some { nanos := 1000 * dayNanos, zoneOffset := 0 }
      else if s = "2099-06-01 00:00:00 +0000 UTC" then
        some { nanos := 1151 * dayNanos, zoneOffset := 0 }
      else if s = "2026-11-10 00:00:00 +0000 UTC" then
        some { nanos := 906 * dayNanos, zoneOffset := 0 }
      else if s = "2026-11-12 00:00:00 +0000 UTC" then
        some { nanos := 908 * dayNanos, zoneOffset := 0 }
      else none,
    format := fun t => toString t.nanos }

/-- A monitor with notifications switched on. -/
def exampleMonitor : Monitor :=
  { ID := 1, Name := "web", Target := "https://example.org", Type' := 1, Notify := true }

/-- The Sentinel right after monitor 1 has been allocated: a window of 30 empty
slots, zero today-stats, and no entry in the other maps. -/
def exampleFresh : ServiceSentinel :=
  { serviceStatusToday := [(1, { Up := 0, Down := 0, Delay := 0 })],
    serviceCurrentStatusIndex := [],
    serviceCurrentStatusData := [(1, List.replicate 30 MonitorHistory.zero)],
    latestDate := [], lastStatus := [],
    serviceResponseDataStoreCurrentUp := [], serviceResponseDataStoreCurrentDown := [],
    monitors := [(1, exampleMonitor)], sslCertCache := [] }

/-- A report for monitor 1 read at a fixed clock. -/
def exampleReport (ok : Bool) (delay : ℚ) (data : String) : ReportData × Tick :=
  ({ Data := { Id := 1, Type' := 1, Delay := delay, Data := data, Successful := ok },
     Reporter := 7 },
   { nowDate := "04-Nov-26", now := { nanos := 900 * dayNanos, zoneOffset := 0 } })

/-- The delays of the successful reports of a run, in order. -/
def successfulDelays (evs : List (ReportData × Tick)) : List ℚ :=
  (evs.filter (fun e => e.1.Data.Successful)).map (fun e => e.1.Data.Delay)

/-- The number of failed reports of a run. -/
def failedCount (evs : List (ReportData × Tick)) : Nat :=
  (evs.filter (fun e => !e.1.Data.Successful)).length

/-- The today-stats of monitor `k` after the reports `done` of the local day `day`,
begun with zeroed today-stats: `up` and `down` count the successful and the failed
reports and `delay * up` is the sum of the delays of the successful ones.  The window
has 30 slots and the index is below 30, so that the next report does not panic. -/
def TodayInv (k : Nat) (day : String) (done : List (ReportData × Tick))
    (ss : ServiceSentinel) : Prop :=
  (∃ mon, mapGet ss.monitors k = some mon ∧ mon.ID ≠ 0) ∧
  (windowOf ss k).length = CurrentStatusSize ∧
  indexOf ss k < CurrentStatusSize ∧
  (done ≠ [] → latestDateOf ss k = day) ∧
  ∃ today, mapGet ss.serviceStatusToday k = some today ∧
    (done = [] → today = { Up := 0, Down := 0, Delay := 0 }) ∧
    today.Up = (successfulDelays done).length ∧
    today.Down = failedCount done ∧
    today.Delay * (today.Up : ℚ) = (successfulDelays done).sum

/-- A state in which monitor 1 was last seen as "良好" and its window holds one
successful probe. -/
def exampleSeen : ServiceSentinel :=
  { exampleFresh with
    serviceCurrentStatusIndex := [(1, 1)],
    serviceCurrentStatusData :=
      [(1, { MonitorID := 1, CreatedAt := 0, Delay := 3, Data := "", Successful := true }
            :: List.replicate 29 MonitorHistory.zero)],
    lastStatus := [(1, "良好")] }

/-- A state in which monitor 1 has never been observed (empty `lastStatus`) while its
window holds four failed probes. -/
def exampleUnseen : ServiceSentinel :=
  { exampleFresh with
    serviceCurrentStatusIndex := [(1, 4)],
    serviceCurrentStatusData :=
      [(1, List.replicate 4
              { MonitorID := 1, CreatedAt := 0, Delay := 0, Data := "x", Successful := false }
            ++ List.replicate 26 MonitorHistory.zero)] }

/-- The issuer of a certificate descriptor as the worker reads it: the part before
the first `|`. -/
def descriptorIssuer (d : String) : String :=
  (stringsSplit d '|').getD 0 ""

/-- The expiry of a cached certificate descriptor as the worker reads it: the parsed
second part, and the zero time when there is no second part or it does not parse. -/
def descriptorNotAfter (T : TimeLib) (d : String) : GoTime :=
  if (stringsSplit d '|').length > 1 then T.parseOrZero ((stringsSplit d '|').getD 1 "")
  else GoTime.zero

/-- A state in which the certificate cache of monitor 1 holds a descriptor. -/
def exampleCached : ServiceSentinel :=
  { exampleFresh with sslCertCache := [(1, "R3|2099-01-01 00:00:00 +0000 UTC")] }

/-! ## Catalog operations -/

/-- Modelled from the spec: `model.ServiceItemResponse`, declared outside the given
sources; a response carries the monitor, the fixed-length arrays `Up[30]`,
`Down[30]`, `Delay[30]`, the running totals and the current counters. -/
structure ServiceItemResponse where
  Monitor : Monitor
  TotalUp : Nat
  TotalDown : Nat
  CurrentUp : Nat
  CurrentDown : Nat
  Delay : List ℚ
  Up : List Nat
  Down : List Nat
deriving DecidableEq, Repr

/-- The entry of the external cache under the key `CacheKeyServicePage`: `none`
when the key is absent.  The cache keeps the Go value it is given, a map of
pointers, so what it holds is the object itself, not a copy. -/
abbrev PageCache := Option (GoMap ServiceItemResponse)

/-- The body of the loop of `OnMonitorUpdate` for one monitor read from the store. -/
def allocMonitor (ss : ServiceSentinel) (m : Monitor) : ServiceSentinel :=
  { ss with
    monitors := mapSet ss.monitors m.ID m,
    serviceCurrentStatusData :=
      if ((mapGet ss.serviceCurrentStatusData m.ID).getD []).length = 0 then
        mapSet ss.serviceCurrentStatusData m.ID
          (List.replicate CurrentStatusSize MonitorHistory.zero)
      else ss.serviceCurrentStatusData,
    serviceStatusToday :=
      if mapGet ss.serviceStatusToday m.ID = none then
        mapSet ss.serviceStatusToday m.ID { Up := 0, Down := 0, Delay := 0 }
      else ss.serviceStatusToday }

/-- The method `ServiceSentinel.OnMonitorUpdate`; `monitors` is what
`DB.Find(&monitors)` reads from the store. -/
def OnMonitorUpdate (ss : ServiceSentinel) (monitors : List Monitor) : ServiceSentinel :=
  monitors.foldl allocMonitor { ss with monitors := [] }

/-- The method `ServiceSentinel.OnMonitorDelete`, with the cache entry that
`Cache.Delete(model.CacheKeyServicePage)` removes. -/
def OnMonitorDelete (ss : ServiceSentinel) (_cache : PageCache) (id : Nat) :
    ServiceSentinel × PageCache :=
  ({ ss with
     serviceCurrentStatusIndex := mapDelete ss.serviceCurrentStatusIndex id,
     serviceCurrentStatusData := mapDelete ss.serviceCurrentStatusData id,
     latestDate := mapDelete ss.latestDate id,
     lastStatus := mapDelete ss.lastStatus id,
     serviceResponseDataStoreCurrentUp := mapDelete ss.serviceResponseDataStoreCurrentUp id,
     serviceResponseDataStoreCurrentDown := mapDelete ss.serviceResponseDataStoreCurrentDown id,
     sslCertCache := mapDelete ss.sslCertCache id,
     monitors := mapDelete ss.monitors id },
   none)

/-- A state of monitor 1 after one successful report: every per-monitor map has an
entry for the id 1. -/
def exampleBusy : ServiceSentinel :=
  { serviceStatusToday := [(1, { Up := 1, Down := 0, Delay := 3 })],
    serviceCurrentStatusIndex := [(1, 1)],
    serviceCurrentStatusData :=
      [(1, { MonitorID := 1, CreatedAt := 0, Delay := 3, Data := "", Successful := true }
            :: List.replicate 29 MonitorHistory.zero)],
    latestDate := [(1, "04-Nov-26")], lastStatus := [(1, "良好")],
    serviceResponseDataStoreCurrentUp := [(1, 1)],
    serviceResponseDataStoreCurrentDown := [(1, 0)],
    monitors := [(1, exampleMonitor)],
    sslCertCache := [(1, "R3|2099-01-01 00:00:00 +0000 UTC")] }

/-- A state with the two monitors 1 and 2, each with an entry in every map. -/
def exampleTwo : ServiceSentinel :=
  { serviceStatusToday :=
      [(1, { Up := 1, Down := 0, Delay := 3 }), (2, { Up := 0, Down := 2, Delay := 0 })],
    serviceCurrentStatusIndex := [(1, 1), (2, 2)],
    serviceCurrentStatusData :=
      [(1, List.replicate 30 MonitorHistory.zero), (2, List.replicate 30 MonitorHistory.zero)],
    latestDate := [(1, "04-Nov-26"), (2, "04-Nov-26")],
    lastStatus := [(1, "良好"), (2, "无数据")],
    serviceResponseDataStoreCurrentUp := [(1, 1), (2, 0)],
    serviceResponseDataStoreCurrentDown := [(1, 0), (2, 2)],
    monitors := [(1, exampleMonitor), (2, { exampleMonitor with ID := 2, Name := "db" })],
    sslCertCache := [(1, "R3|2099-01-01 00:00:00 +0000 UTC"), (2, "")] }

/-- The number of filled slots of a window that hold a successful probe. -/
def successfulSlots (w : List MonitorHistory) : Nat :=
  w.countP (fun h => decide (h.MonitorID > 0) && h.Successful)

/-- The number of filled slots of a window that hold a failed probe. -/
def failedSlots (w : List MonitorHistory) : Nat :=
  w.countP (fun h => decide (h.MonitorID > 0) && !h.Successful)

/-- A list of two monitors as read from the store. -/
def exampleCatalog : List Monitor :=
  [exampleMonitor, { exampleMonitor with ID := 2, Name := "db" }]

/-- The keys of a Go map, each once. -/
def mapKeys {V : Type} (m : GoMap V) : List Nat :=
  (m.map Prod.fst).dedup

/-- The values of a Go map, one per key. -/
def mapValues {V : Type} (m : GoMap V) : List V :=
  (mapKeys m).filterMap (mapGet m)

/-- The method `ServiceSentinel.Monitors`.  The order in which `range` yields the
entries of a Go map is not specified: `rangeOrder` rearranges the values of the
catalog into the order of this call.  `sort.SliceStable` is a stable sort, here
insertion sort. -/
def Monitors (ss : ServiceSentinel) (rangeOrder : List Monitor → List Monitor) :
    List Monitor :=
  List.insertionSort (fun a b => a.ID ≤ b.ID) (rangeOrder (mapValues ss.monitors))

/-- The catalog is keyed by monitor id, as `OnMonitorUpdate` builds it. -/
def CatalogKeyed (ss : ServiceSentinel) : Prop :=
  ∀ k m, mapGet ss.monitors k = some m → m.ID = k

/-! ## The statistics loader -/

/-- The tables of the store that the Sentinel reads: `monitors` and
`monitor_histories`. -/
structure Store where
  monitors : List Monitor
  histories : List MonitorHistory
deriving DecidableEq, Repr

/-- Nanoseconds in an hour. -/
def hourNanos : Int := 3600000000000

/-- The local `dayIndex` of `LoadStats`,
`28 - (int(today.Sub(createdAt).Hours()) / 24)`, for local midnight `today` and a
record created at `createdAt` (instants in nanoseconds).  The conversion to `int` and
the division of Go both truncate toward zero. -/
def dayIndex (today createdAt : Int) : Int :=
  28 - Int.tdiv (Int.tdiv (today - createdAt) hourNanos) 24

/-- The rows that `DB.Where("created_at >= ? AND created_at < ?",
today.AddDate(0, 0, -29), today).Find(&mhs)` selects, with days of 24 hours. -/
def selectHistories (db : Store) (today : Int) : List MonitorHistory :=
  db.histories.filter (fun h =>
    decide (today - 29 * dayNanos ≤ h.CreatedAt) && decide (h.CreatedAt < today))

/-- The response `LoadStats` creates for a monitor: zero totals and three zero
arrays of 30 elements. -/
def emptyResponse (m : Monitor) : ServiceItemResponse :=
  { Monitor := m, TotalUp := 0, TotalDown := 0, CurrentUp := 0, CurrentDown := 0,
    Delay := List.replicate 30 0, Up := List.replicate 30 0, Down := List.replicate 30 0 }

/-- The body of the loop "整合数据" of `LoadStats` for one history row; `none` is a
panic (nil response of an unknown monitor, or array index out of range). -/
def addHistory (today : Int) (msm : GoMap ServiceItemResponse) (h : MonitorHistory) :
    Option (GoMap ServiceItemResponse) :=
  match mapGet msm h.MonitorID with
  | none => none
  | some item =>
    if 0 ≤ dayIndex today h.CreatedAt ∧ dayIndex today h.CreatedAt < 30 then
      let i := (dayIndex today h.CreatedAt).toNat
      if h.Successful then
        some (mapSet msm h.MonitorID
          { item with
            TotalUp := item.TotalUp + 1,
            Delay := item.Delay.set i
              ((item.Delay.getD i 0 * (item.Up.getD i 0 : ℚ) + h.Delay)
                / ((item.Up.getD i 0 + 1 : Nat) : ℚ)),
            Up := item.Up.set i (item.Up.getD i 0 + 1) })
      else
        some (mapSet msm h.MonitorID
          { item with
            TotalDown := item.TotalDown + 1,
            Down := item.Down.set i (item.Down.getD i 0 + 1) })
    else none

/-- The body of the loop "最新一天的数据" of `LoadStats` for one catalog key; `none`
is a panic (nil today-stats). -/
def overlayToday (ss : ServiceSentinel) (msm : GoMap ServiceItemResponse) (k : Nat) :
    Option (GoMap ServiceItemResponse) :=
  let item := (mapGet msm k).getD (emptyResponse Monitor.zero)
  match mapGet ss.serviceStatusToday k with
  | none => none
  | some v =>
    some (mapSet msm k
      { item with
        Monitor := (mapGet ss.monitors k).getD Monitor.zero,
        Up := item.Up.set 29 v.Up,
        Down := item.Down.set 29 v.Down,
        TotalUp := item.TotalUp + v.Up,
        TotalDown := item.TotalDown + v.Down,
        Delay := item.Delay.set 29 v.Delay })

/-- The body of the loop over `serviceResponseDataStoreCurrentDown`; `none` is a
panic (nil response). -/
def overlayCurrentDown (ss : ServiceSentinel) (msm : GoMap ServiceItemResponse) (k : Nat) :
    Option (GoMap ServiceItemResponse) :=
  match mapGet msm k with
  | none => none
  | some item =>
    some (mapSet msm k
      { item with
        CurrentDown := (mapGet ss.serviceResponseDataStoreCurrentDown k).getD 0 })

/-- The body of the loop over `serviceResponseDataStoreCurrentUp`; `none` is a panic
(nil response). -/
def overlayCurrentUp (ss : ServiceSentinel) (msm : GoMap ServiceItemResponse) (k : Nat) :
    Option (GoMap ServiceItemResponse) :=
  match mapGet msm k with
  | none => none
  | some item =>
    some (mapSet msm k
      { item with CurrentUp := (mapGet ss.serviceResponseDataStoreCurrentUp k).getD 0 })

/-- The method `ServiceSentinel.LoadStats`, with the cache entry as explicit state:
the result is the returned map and the cache entry after the call, `none` is a panic.
`today` is the local midnight read from the clock.  The cached value and the returned
value are one Go map of pointers, so the writes of the last three loops reach the
cached responses: the entry after the call is the returned map. -/
def LoadStats (ss : ServiceSentinel) (cache : PageCache) (db : Store) (today : Int) :
    Option (GoMap ServiceItemResponse × PageCache) :=
  let base : Option (GoMap ServiceItemResponse) :=
    match cache with
    | some msm => some msm
    | none =>
      (selectHistories db today).foldlM (addHistory today)
        (db.monitors.foldl (fun msm m => mapSet msm m.ID (emptyResponse m)) [])
  match base with
  | none => none
  | some msm0 =>
    match (mapKeys ss.monitors).foldlM (overlayToday ss) msm0 with
    | none => none
    | some msm1 =>
      match (mapKeys ss.serviceResponseDataStoreCurrentDown).foldlM
          (overlayCurrentDown ss) msm1 with
      | none => none
      | some msm2 =>
        match (mapKeys ss.serviceResponseDataStoreCurrentUp).foldlM
            (overlayCurrentUp ss) msm2 with
        | none => none
        | some msm3 => some (msm3, some msm3)

/-- The store with monitor 1 and no history. -/
def exampleStore : Store :=
  { monitors := [exampleMonitor], histories := [] }

/-- The store with monitor 1 and one history row, created exactly 29 days of 24
hours before the local midnight of day 900. -/
def exampleStoreOld : Store :=
  { monitors := [exampleMonitor],
    histories := [{ MonitorID := 1, CreatedAt := 871 * dayNanos, Delay := 3, Data := "",
                    Successful := true }] }

/-! ## The probe executor -/

/-- Modelled from the spec: `pb.Task`, declared outside the given sources;
`{id, type, data}`. -/
structure Task where
  Id : Nat
  Type' : Nat
  Data : String
deriving DecidableEq, Repr

/-- The constants `model.TaskTypeHTTPGET`, `model.TaskTypeICMPPing`,
`model.TaskTypeTCPPing` and `model.TaskTypeCommand`, declared outside the given
sources and taken as parameters. -/
structure TaskTypes where
  HTTPGET : Nat
  ICMPPing : Nat
  TCPPing : Nat
  Command : Nat
deriving DecidableEq, Repr

/-- What the HTTP probe observes: the error of `httpClient.Get` (an error is given by
its message, `none` is `nil`), the elapsed microseconds, the status code and status
line of the response, the error and the scheme of `url.Parse`, and the fields of the
result of `cert.NewCert`. -/
structure HTTPOutcome where
  getErr : Option String
  elapsedMicros : Int
  statusCode : Int
  status : String
  urlErr : Option String
  scheme : String
  certError : String
  certIssuer : String
  certNotAfter : String
deriving DecidableEq, Repr

/-- What the ICMP probe observes: the errors of `ping.NewPinger` and of `pinger.Run`
and the average round trip in microseconds. -/
structure PingOutcome where
  newPingerErr : Option String
  runErr : Option String
  avgRttMicros : Int
deriving DecidableEq, Repr

/-- What the TCP probe observes: the error of `net.DialTimeout` and the elapsed
microseconds. -/
structure TCPOutcome where
  dialErr : Option String
  elapsedMicros : Int
deriving DecidableEq, Repr

/-- What the command probe observes: `utils.NewProcessExitGroup` fails; or
`cmd.Output` returns the output without error; or it returns an error, after the
two-hour timer has fired (`timedOut`) or before.  A clean exit that races with the
timer is left out. -/
inductive CommandOutcome where
  | groupFailed (err : String)
  | exited (output : String) (elapsedSeconds : ℚ)
  | failed (output : String) (err : String) (timedOut : Bool) (elapsedSeconds : ℚ)
deriving DecidableEq, Repr

/-- The observations of the four probes; `doTask` uses those of the probe it runs. -/
structure ProbeIO where
  http : HTTPOutcome
  ping : PingOutcome
  tcp : TCPOutcome
  command : CommandOutcome
deriving DecidableEq, Repr

/-- The HTTP-GET case of `doTask`. -/
def doHTTPGET (result : TaskResult) (o : HTTPOutcome) : TaskResult :=
  match o.getErr with
  | some e => { result with Data := e }
  | none =>
    let result1 := { result with Delay := (o.elapsedMicros : ℚ) / 1000 }
    if o.statusCode > 399 ∨ o.statusCode < 200 then
      { result1 with Data := "\n应用错误：" ++ o.status }
    else
      match o.urlErr with
      | some e => { result1 with Data := "URL解析错误：" ++ e }
      | none =>
        if o.scheme = "https" then
          if o.certError ≠ "" then
            { result1 with Data := "SSL证书错误：" ++ o.certError }
          else
            { result1 with Data := o.certIssuer ++ "|" ++ o.certNotAfter, Successful := true }
        else
          { result1 with Successful := true }

/-- The ICMP-Ping case of `doTask`. -/
def doICMPPing (result : TaskResult) (o : PingOutcome) : TaskResult :=
  match o.newPingerErr with
  | some e => { result with Data := e }
  | none =>
    match o.runErr with
    | some e => { result with Data := e }
    | none => { result with Delay := (o.avgRttMicros : ℚ) / 1000, Successful := true }

/-- The TCP-Ping case of `doTask`. -/
def doTCPPing (result : TaskResult) (o : TCPOutcome) : TaskResult :=
  match o.dialErr with
  | some e => { result with Data := e }
  | none => { result with Delay := (o.elapsedMicros : ℚ) / 1000, Successful := true }

/-- The Command case of `doTask`. -/
def doCommand (result : TaskResult) (o : CommandOutcome) : TaskResult :=
  match o with
  | .groupFailed e => { result with Data := e }
  | .exited output secs => { result with Data := output, Successful := true, Delay := secs }
  | .failed output e timedOut secs =>
    { result with
      Data := (if timedOut then "任务执行超时\n" else "") ++ (output ++ "\n" ++ e),
      Delay := secs }

/-- The function `doTask`: the `TaskResult` it hands to `client.ReportTask`. -/
def doTask (K : TaskTypes) (task : Task) (io : ProbeIO) : TaskResult :=
  let result : TaskResult :=
    { Id := task.Id, Type' := task.Type', Delay := 0, Data := "", Successful := false }
  if task.Type' = K.HTTPGET then doHTTPGET result io.http
  else if task.Type' = K.ICMPPing then doICMPPing result io.ping
  else if task.Type' = K.TCPPing then doTCPPing result io.tcp
  else if task.Type' = K.Command then doCommand result io.command
  else result

/-- Every error that a library call of the probes returns has a non-empty message. -/
def ErrorsHaveMessage (io : ProbeIO) : Prop :=
  (∀ e, io.http.getErr = some e → e ≠ "") ∧
  (∀ e, io.ping.newPingerErr = some e → e ≠ "") ∧
  (∀ e, io.ping.runErr = some e → e ≠ "") ∧
  (∀ e, io.tcp.dialErr = some e → e ≠ "") ∧
  (∀ e, io.command = CommandOutcome.groupFailed e → e ≠ "")

/-- The probe kinds numbered from 1, for the examples. -/
def exampleTypes : TaskTypes :=
  { HTTPGET := 1, ICMPPing := 2, TCPPing := 3, Command := 4 }

/-- Probe outcomes in which the TCP dial is refused and the other probes succeed. -/
def exampleIO : ProbeIO :=
  { http := { getErr := none, elapsedMicros := 1500, statusCode := 200, status := "200 OK",
              urlErr := none, scheme := "http", certError := "", certIssuer := "",
              certNotAfter := "" },
    ping := { newPingerErr := none, runErr := none, avgRttMicros := 800 },
    tcp := { dialErr := some "dial tcp 127.0.0.1:1: connect: connection refused",
             elapsedMicros := 0 },
    command := CommandOutcome.exited "ok" 1 }

/-! ## Start-up and reachable states -/

/-- The Sentinel with every map empty, as `NewServiceSentinel` creates it. -/
def emptySentinel : ServiceSentinel :=
  { serviceStatusToday := [], serviceCurrentStatusIndex := [], serviceCurrentStatusData := [],
    latestDate := [], lastStatus := [], serviceResponseDataStoreCurrentUp := [],
    serviceResponseDataStoreCurrentDown := [], monitors := [], sslCertCache := [] }

/-- The body of the loop "加载当日记录" of `NewServiceSentinel` for one history row of
today, on the today-stats and the local map `totalDelay`; `none` is a panic (nil
today-stats of a monitor that is not in the catalog). -/
def loadTodayRow (acc : GoMap TodayStatsOfMonitor × GoMap ℚ) (h : MonitorHistory) :
    Option (GoMap TodayStatsOfMonitor × GoMap ℚ) :=
  match mapGet acc.1 h.MonitorID with
  | none => none
  | some t =>
    if h.Successful then
      some (mapSet acc.1 h.MonitorID { t with Up := t.Up + 1 },
            mapSet acc.2 h.MonitorID ((mapGet acc.2 h.MonitorID).getD 0 + h.Delay))
    else
      some (mapSet acc.1 h.MonitorID { t with Down := t.Down + 1 }, acc.2)

/-- The body of the loop over `totalDelay` of `NewServiceSentinel`. -/
def setTodayDelay (totalDelay : GoMap ℚ) (today : GoMap TodayStatsOfMonitor) (id : Nat) :
    Option (GoMap TodayStatsOfMonitor) :=
  match mapGet today id with
  | none => none
  | some t =>
    some (mapSet today id { t with Delay := (mapGet totalDelay id).getD 0 / (t.Up : ℚ) })

/-- The function `NewServiceSentinel`, up to the start of the worker: the state it
builds from the store, the local midnight `today` and the day tag `nowDate` read from
the clock; `none` is a panic. -/
def NewServiceSentinel (db : Store) (today : Int) (nowDate : String) :
    Option ServiceSentinel :=
  let ss0 := OnMonitorUpdate emptySentinel db.monitors
  match (db.histories.filter (fun h => decide (today ≤ h.CreatedAt))).foldlM loadTodayRow
      (ss0.serviceStatusToday, []) with
  | none => none
  | some loaded =>
    match (mapKeys loaded.2).foldlM (setTodayDelay loaded.2) loaded.1 with
    | none => none
    | some statusToday =>
      some { ss0 with
             serviceStatusToday := statusToday,
             latestDate :=
               (mapKeys ss0.monitors).foldl (fun m k => mapSet m k nowDate) ss0.latestDate }

/-- The states of the Sentinel that can be reached from the state built by
`NewServiceSentinel` through `OnMonitorUpdate`, `OnMonitorDelete` and iterations of
the worker, in any order, each taken as one step. -/
inductive Reachable (T : TimeLib) : ServiceSentinel → Prop where
  | init (db : Store) (today : Int) (nowDate : String) (ss : ServiceSentinel) :
      NewServiceSentinel db today nowDate = some ss → Reachable T ss
  | update (ss : ServiceSentinel) (monitors : List Monitor) :
      Reachable T ss → Reachable T (OnMonitorUpdate ss monitors)
  | delete (ss : ServiceSentinel) (cache : PageCache) (id : Nat) :
      Reachable T ss → Reachable T (OnMonitorDelete ss cache id).1
  | step (ss ss' : ServiceSentinel) (r : ReportData) (c : Tick) (out : StepOutput) :
      Reachable T ss → workerStep T ss r c = some (ss', out) → Reachable T ss'

/-- The invariant of the reachable states: every window is absent or has 30 slots,
every index is below 30, the counters of every id add up to at most 30, every
monitor of the catalog has a window of 30 slots and a today-stats record, and the
catalog is keyed by monitor id. -/
def SentinelInv (ss : ServiceSentinel) : Prop :=
  (∀ k, (windowOf ss k).length = 0 ∨ (windowOf ss k).length = CurrentStatusSize) ∧
  (∀ k, indexOf ss k < CurrentStatusSize) ∧
  (∀ k, currentUpOf ss k + currentDownOf ss k ≤ CurrentStatusSize) ∧
  (∀ k m, mapGet ss.monitors k = some m →
    (windowOf ss k).length = CurrentStatusSize ∧
    ∃ t, mapGet ss.serviceStatusToday k = some t) ∧
  CatalogKeyed ss

/-- The state `NewServiceSentinel` builds from the store with monitor 1 and no
history on day "04-Nov-26". -/
def exampleStarted : ServiceSentinel :=
  { exampleFresh with latestDate := [(1, "04-Nov-26")] }

/-! ## Lemmas on maps and on one iteration -/

/-- A deleted key is absent. -/
theorem mapGet_mapDelete_self {V : Type} (m : GoMap V) (k : Nat) :
    mapGet (mapDelete m k) k = none := by
  induction m with
  | nil => rfl
  | cons p rest ih =>
    obtain ⟨k', v⟩ := p
    by_cases h : k' = k
    · simpa [mapDelete, List.filter_cons, h] using ih
    · simpa [mapDelete, List.filter_cons, h, mapGet] using ih

/-- Deleting a key leaves the other keys as they were. -/
theorem mapGet_mapDelete_ne {V : Type} (m : GoMap V) (k k' : Nat) (hne : k' ≠ k) :
    mapGet (mapDelete m k) k' = mapGet m k' := by
  induction m with
  | nil => rfl
  | cons p rest ih =>
    obtain ⟨k₀, v⟩ := p
    unfold mapDelete at ih ⊢
    by_cases h : k₀ = k
    · subst h
      have h' : ¬ k₀ = k' := fun e => hne e.symm
      simp only [List.filter_cons, bne_self_eq_false, Bool.false_eq_true, if_false, mapGet, h']
      exact ih
    · have hb : (k₀ != k) = true := by simpa using h
      simp only [List.filter_cons, hb, if_true, mapGet]
      rw [ih]

/-- Deleting a key twice is deleting it once. -/
theorem mapDelete_mapDelete {V : Type} (m : GoMap V) (k : Nat) :
    mapDelete (mapDelete m k) k = mapDelete m k := by
  simp [mapDelete, List.filter_filter]

/-- A second write to a key overwrites the first. -/
theorem mapSet_mapSet {V : Type} (m : GoMap V) (k : Nat) (a b : V) :
    mapSet (mapSet m k a) k b = mapSet m k b := by
  have h : mapDelete ((k, a) :: mapDelete m k) k = mapDelete (mapDelete m k) k := by
    simp [mapDelete, List.filter_cons]
  rw [mapSet, mapSet, h, mapDelete_mapDelete, mapSet]

/-- A read after a write to the same key returns the written value. -/
theorem mapGet_mapSet_self {V : Type} (m : GoMap V) (k : Nat) (v : V) :
    mapGet (mapSet m k v) k = some v := by
  simp [mapSet, mapGet]

/-- A write to a key leaves the other keys as they were. -/
theorem mapGet_mapSet_ne {V : Type} (m : GoMap V) (k k' : Nat) (v : V) (hne : k' ≠ k) :
    mapGet (mapSet m k v) k' = mapGet m k' := by
  have h : k ≠ k' := fun e => hne e.symm
  simp [mapSet, mapGet, h, mapGet_mapDelete_ne m k k' hne]

/-- The bucketed state is never the empty string. -/
theorem getStateStr_ne_empty (p : Nat) : getStateStr p ≠ "" := by
  unfold getStateStr
  split_ifs <;> decide

/-- The effect of one iteration on a report that passes the unknown-monitor guard
and does not panic, field by field. -/
theorem workerStep_known (T : TimeLib) (ss : ServiceSentinel) (r : ReportData) (c : Tick)
    (mon : Monitor) (today : TodayStatsOfMonitor)
    (hm : mapGet ss.monitors r.Data.Id = some mon) (hid : mon.ID ≠ 0)
    (ht : mapGet ss.serviceStatusToday r.Data.Id = some today)
    (hi : indexOf ss r.Data.Id < (windowOf ss r.Data.Id).length) :
    ∃ ss' out, workerStep T ss r c = some (ss', out) ∧
      ss'.monitors = ss.monitors ∧
      ss'.serviceStatusToday = mapSet ss.serviceStatusToday r.Data.Id
        (updateToday (decide (c.nowDate ≠ latestDateOf ss r.Data.Id)) today
          (PB2MonitorHistory r.Data)) ∧
      ss'.latestDate = (if c.nowDate ≠ latestDateOf ss r.Data.Id
        then mapSet ss.latestDate r.Data.Id c.nowDate else ss.latestDate) ∧
      ss'.serviceCurrentStatusData = mapSet ss.serviceCurrentStatusData r.Data.Id
        ((windowOf ss r.Data.Id).set (indexOf ss r.Data.Id) (PB2MonitorHistory r.Data)) ∧
      ss'.serviceCurrentStatusIndex = mapSet ss.serviceCurrentStatusIndex r.Data.Id
        (if indexOf ss r.Data.Id + 1 = CurrentStatusSize then 0 else indexOf ss r.Data.Id + 1) ∧
      ss'.serviceResponseDataStoreCurrentUp = mapSet ss.serviceResponseDataStoreCurrentUp r.Data.Id
        (recount ((windowOf ss r.Data.Id).set (indexOf ss r.Data.Id) (PB2MonitorHistory r.Data))).1 ∧
      ss'.serviceResponseDataStoreCurrentDown = mapSet ss.serviceResponseDataStoreCurrentDown r.Data.Id
        (recount ((windowOf ss r.Data.Id).set (indexOf ss r.Data.Id) (PB2MonitorHistory r.Data))).2 ∧
      ss'.sslCertCache = (sslCheck T ss.sslCertCache (PB2MonitorHistory r.Data) c.now).1 ∧
      out.batch = (if indexOf ss r.Data.Id + 1 = CurrentStatusSize
        then some ((windowOf ss r.Data.Id).set (indexOf ss r.Data.Id) (PB2MonitorHistory r.Data))
        else none) ∧
      out.sslNotification =
        (if (sslCheck T ss.sslCertCache (PB2MonitorHistory r.Data) c.now).2 ≠ "" ∧ mon.Notify = true
        then some { text := "服务监控：" ++ mon.Name ++ " "
                      ++ (sslCheck T ss.sslCertCache (PB2MonitorHistory r.Data) c.now).2,
                    urgent := true }
        else none) ∧
      (out.statusNotification =
        if mon.Notify = true ∧ (bucketedState ss' r.Data.Id = "故障" ∨
            (bucketedState ss' r.Data.Id ≠ lastStatusOf ss r.Data.Id ∧
              lastStatusOf ss r.Data.Id ≠ ""))
        then some { text := "服务监控：" ++ mon.Name ++ " 服务状态：" ++ bucketedState ss' r.Data.Id,
                    urgent := true }
        else none) ∧
      mapGet ss'.lastStatus r.Data.Id = some (bucketedState ss' r.Data.Id) := by
  unfold indexOf windowOf at hi
  unfold workerStep
  rw [if_neg (by simpa [hm] using hid)]
  simp only [PB2MonitorHistory, ht]
  rw [if_pos hi]
  refine ⟨_, _, rfl, rfl, ?_, ?_, rfl, ?_, ?_, ?_, rfl, ?_, ?_, ?_, ?_⟩
  · simp [latestDateOf]
  · simp only [latestDateOf]
    split_ifs <;> simp_all
  · simp only [indexOf]
    split_ifs <;> simp_all
  · simp only []
    split_ifs
    · exact mapSet_mapSet _ _ _ _
    · rfl
  · simp only []
    split_ifs
    · exact mapSet_mapSet _ _ _ _
    · rfl
  · simp only [indexOf, windowOf]
    split_ifs <;> simp_all
  · simp only [hm, Option.getD_some]
  · simp only [bucketedState, currentUpOf, currentDownOf, lastStatusOf, mapGet_mapSet_self,
      hm, Option.getD_some]
    refine if_congr ?_ rfl rfl
    simp only [Bool.and_eq_true, decide_eq_true_eq]
    tauto
  · simp only [bucketedState, currentUpOf, currentDownOf, mapGet_mapSet_self, Option.getD_some]
    split_ifs with hg
    · exact mapGet_mapSet_self _ _ _
    · simp only [decide_eq_true_eq, not_or, not_not] at hg
      cases hl : mapGet ss.lastStatus r.Data.Id with
      | none =>
        rw [hl] at hg
        exact absurd hg.2 (getStateStr_ne_empty _)
      | some v =>
        rw [hl] at hg
        simp only [Option.getD_some] at hg
        rw [hg.2]

/-- Induction over a run of the worker: a property of the reports processed so far,
the state and the outputs so far that every iteration re-establishes holds at the end
of the run, and the run does not panic. -/
theorem worker_induct (T : TimeLib) (E : ReportData × Tick → Prop)
    (Inv : List (ReportData × Tick) → ServiceSentinel → List StepOutput → Prop)
    (hstep : ∀ done ss outs e, Inv done ss outs → E e →
      ∃ ss' out, workerStep T ss e.1 e.2 = some (ss', out) ∧
        Inv (done ++ [e]) ss' (outs ++ [out])) :
    ∀ (evs done : List (ReportData × Tick)) (ss : ServiceSentinel) (outs : List StepOutput),
      Inv done ss outs → (∀ e ∈ evs, E e) →
      ∃ ss' outs', worker T ss evs = some (ss', outs') ∧
        Inv (done ++ evs) ss' (outs ++ outs') := by
  intro evs
  induction evs with
  | nil =>
    intro done ss outs h _
    exact ⟨ss, [], rfl, by simpa using h⟩
  | cons e rest ih =>
    intro done ss outs h hE
    obtain ⟨ss1, out, h1, hinv1⟩ := hstep done ss outs e h (hE e (List.mem_cons_self _ _))
    obtain ⟨ss2, outs2, h2, hinv2⟩ :=
      ih (done ++ [e]) ss1 (outs ++ [out]) hinv1 (fun x hx => hE x (List.mem_cons_of_mem _ hx))
    refine ⟨ss2, out :: outs2, ?_, ?_⟩
    · obtain ⟨r, c⟩ := e
      simp only [worker, h1, h2]
    · simpa using hinv2

/-- The recount loop from any starting pair of counters adds the number of filled
slots to their sum. -/
theorem recount_foldl_sum (w : List MonitorHistory) (acc : Nat × Nat) :
    (w.foldl
      (fun acc h =>
        if h.MonitorID > 0 then
          if h.Successful then (acc.1 + 1, acc.2) else (acc.1, acc.2 + 1)
        else acc) acc).1 +
    (w.foldl
      (fun acc h =>
        if h.MonitorID > 0 then
          if h.Successful then (acc.1 + 1, acc.2) else (acc.1, acc.2 + 1)
        else acc) acc).2 = acc.1 + acc.2 + filledSlots w := by
  induction w generalizing acc with
  | nil => simp [filledSlots]
  | cons h t ih =>
    rw [List.foldl_cons, ih]
    unfold filledSlots
    rw [List.countP_cons]
    by_cases hf : h.MonitorID > 0
    · by_cases hs : h.Successful = true
      · simp only [hf, hs, if_true, decide_True]
        omega
      · simp only [hf, hs, if_true, decide_True]
        simp
        omega
    · simp only [hf, if_false, decide_False]
      simp

/-- The recount loop counts every filled slot exactly once. -/
theorem recount_sum (w : List MonitorHistory) :
    (recount w).1 + (recount w).2 = filledSlots w := by
  have h := recount_foldl_sum w (0, 0)
  simpa [recount] using h

/-- A window whose first `n` slots are filled and whose other slots are empty has
`min n length` filled slots. -/
theorem filledSlots_of_front (k : Nat) (hk : k ≠ 0) :
    ∀ (w : List MonitorHistory) (n : Nat),
      (∀ j, j < w.length → (w.getD j MonitorHistory.zero).MonitorID = if j < n then k else 0) →
      filledSlots w = min n w.length := by
  intro w
  induction w with
  | nil => intro n _; simp [filledSlots]
  | cons h t ih =>
    intro n hw
    have h0 := hw 0 (by simp)
    have ht : ∀ j, j < t.length →
        (t.getD j MonitorHistory.zero).MonitorID = if j < n - 1 then k else 0 := by
      intro j hj
      have := hw (j + 1) (by simpa using hj)
      simp only [List.getD_cons_succ] at this
      rw [this]
      by_cases hjn : j + 1 < n
      · rw [if_pos hjn, if_pos (by omega)]
      · rw [if_neg hjn, if_neg (by omega)]
    have iht := ih (n - 1) ht
    unfold filledSlots at iht ⊢
    rw [List.countP_cons, iht]
    simp only [List.getD_cons_zero] at h0
    rw [h0]
    by_cases hn : 0 < n
    · have : k > 0 := Nat.pos_of_ne_zero hk
      simp only [hn, if_true, this, decide_True, List.length_cons]
      omega
    · simp only [hn, if_false, List.length_cons]
      simp
      omega

/-- One report for `k` takes the window state after `n` reports to the one after
`n + 1`, and hands the whole window to the store exactly when the index wraps. -/
theorem windowInv_step (T : TimeLib) (k n : Nat) (ss : ServiceSentinel) (r : ReportData)
    (c : Tick) (h : WindowInv k n ss) (hr : r.Data.Id = k) :
    ∃ ss' out, workerStep T ss r c = some (ss', out) ∧ WindowInv k (n + 1) ss' ∧
      out.batch = (if (n + 1) % CurrentStatusSize = 0 then some (windowOf ss' k) else none) := by
  subst hr
  obtain ⟨⟨mon, hm, hid⟩, ⟨today, ht⟩, hlen, hslots, hidx, _⟩ := h
  have hi : indexOf ss r.Data.Id < (windowOf ss r.Data.Id).length := by
    rw [hidx, hlen]
    exact Nat.mod_lt _ (by decide)
  obtain ⟨ss', out, hstep, hmon, htoday, _, hdata, hindex, hup, hdown, _, hbatch, _⟩ :=
    workerStep_known T ss r c mon today hm hid ht hi
  have hw' : windowOf ss' r.Data.Id =
      (windowOf ss r.Data.Id).set (indexOf ss r.Data.Id) (PB2MonitorHistory r.Data) := by
    simp only [windowOf, hdata, mapGet_mapSet_self, Option.getD_some]
  have hi' : indexOf ss' r.Data.Id = (n + 1) % CurrentStatusSize := by
    simp only [indexOf, hindex, mapGet_mapSet_self, Option.getD_some]
    simp only [indexOf] at hidx
    rw [hidx]
    unfold CurrentStatusSize
    split_ifs <;> omega
  refine ⟨ss', out, hstep, ⟨⟨mon, by rw [hmon]; exact hm, hid⟩, ?_, ?_, ?_, hi', ?_⟩, ?_⟩
  · rw [htoday]; exact ⟨_, mapGet_mapSet_self _ _ _⟩
  · rw [hw', List.length_set, hlen]
  · intro j hj
    rw [hw', hidx]
    have hjl : j < (windowOf ss r.Data.Id).length := by rw [hlen]; exact hj
    unfold CurrentStatusSize at hj hlen
    by_cases hji : n % CurrentStatusSize = j
    · subst hji
      rw [List.getD_eq_getElem?_getD, List.getElem?_set_self (by rw [hlen]; exact hj)]
      have : n % CurrentStatusSize < n + 1 := Nat.lt_succ_of_le (Nat.mod_le _ _)
      simp [PB2MonitorHistory, this]
    · rw [List.getD_eq_getElem?_getD, List.getElem?_set_ne hji, ← List.getD_eq_getElem?_getD,
        hslots j hj]
      unfold CurrentStatusSize at hji
      by_cases hjn : j < n
      · rw [if_pos hjn, if_pos (by omega)]
      · rw [if_neg hjn, if_neg (by omega)]
  · intro _
    simp only [currentUpOf, currentDownOf, hup, hdown, mapGet_mapSet_self, Option.getD_some]
    rw [hw']
    exact recount_sum _
  · rw [hbatch, hw', hidx]
    unfold CurrentStatusSize
    have : n % 30 + 1 = 30 ↔ (n + 1) % 30 = 0 := by omega
    simp only [this]

/-- A freshly allocated window is the window state after zero reports. -/
theorem windowInv_fresh (k : Nat) (ss : ServiceSentinel)
    (hm : ∃ mon, mapGet ss.monitors k = some mon ∧ mon.ID ≠ 0)
    (ht : ∃ today, mapGet ss.serviceStatusToday k = some today)
    (hw : windowOf ss k = List.replicate CurrentStatusSize MonitorHistory.zero)
    (hi : indexOf ss k = 0) : WindowInv k 0 ss := by
  refine ⟨hm, ht, ?_, ?_, ?_, ?_⟩
  · rw [hw, List.length_replicate]
  · intro j hj
    rw [hw, List.getD_eq_getElem?_getD, List.getElem?_replicate]
    simp [hj, MonitorHistory.zero]
  · rw [hi]; rfl
  · intro h; exact absurd h (lt_irrefl 0)

/-- The batches of a run extended by one iteration. -/
theorem batchesOf_append (outs : List StepOutput) (out : StepOutput) :
    batchesOf (outs ++ [out]) =
      batchesOf outs ++ (match out.batch with | some b => [b] | none => []) := by
  unfold batchesOf
  rw [List.filterMap_append]
  cases h : out.batch <;> simp [List.filterMap_cons, h]

/-- The run of the worker on reports for `k` from a freshly allocated window: the
window state after `N` reports, the batches issued and the place of each batch. -/
theorem worker_window_run (T : TimeLib) (k : Nat) (ss : ServiceSentinel)
    (evs : List (ReportData × Tick)) (h0 : WindowInv k 0 ss)
    (hev : ∀ e ∈ evs, e.1.Data.Id = k) :
    ∃ ss' outs, worker T ss evs = some (ss', outs) ∧
      WindowInv k evs.length ss' ∧
      outs.length = evs.length ∧
      (batchesOf outs).length = evs.length / CurrentStatusSize ∧
      (∀ b ∈ batchesOf outs, b.length = CurrentStatusSize ∧ ∀ h ∈ b, h.MonitorID = k) ∧
      (∀ j, j < outs.length →
        ((outs.getD j StepOutput.empty).batch ≠ none ↔ (j + 1) % CurrentStatusSize = 0)) := by
  have key := worker_induct T (fun e => e.1.Data.Id = k)
    (fun done ss outs =>
      WindowInv k done.length ss ∧
      outs.length = done.length ∧
      (batchesOf outs).length = done.length / CurrentStatusSize ∧
      (∀ b ∈ batchesOf outs, b.length = CurrentStatusSize ∧ ∀ h ∈ b, h.MonitorID = k) ∧
      (∀ j, j < outs.length →
        ((outs.getD j StepOutput.empty).batch ≠ none ↔ (j + 1) % CurrentStatusSize = 0)))
    (by
      intro done ss outs e ⟨hinv, hlen, hcount, hall, hpos⟩ he
      obtain ⟨ss', out, hstep, hinv', hbatch⟩ := windowInv_step T k done.length ss e.1 e.2 hinv he
      refine ⟨ss', out, hstep, ?_, ?_, ?_, ?_, ?_⟩
      · simpa using hinv'
      · simp [hlen]
      · rw [batchesOf_append, List.length_append, hcount, hbatch, List.length_append,
          List.length_singleton, Nat.succ_div]
        unfold CurrentStatusSize
        by_cases hd : (done.length + 1) % 30 = 0
        · rw [if_pos hd, if_pos (Nat.dvd_of_mod_eq_zero hd)]
          rfl
        · rw [if_neg hd, if_neg (fun hdv => hd (Nat.mod_eq_zero_of_dvd hdv))]
          rfl
      · intro b hb
        rw [batchesOf_append, List.mem_append] at hb
        rcases hb with hb | hb
        · exact hall b hb
        · rw [hbatch] at hb
          by_cases hd : (done.length + 1) % CurrentStatusSize = 0
          · rw [if_pos hd] at hb
            simp only [List.mem_singleton] at hb
            subst hb
            obtain ⟨_, _, hl, hslots, _, _⟩ := hinv'
            refine ⟨hl, ?_⟩
            intro h hh
            obtain ⟨j, hj, rfl⟩ := List.getElem_of_mem hh
            have hj' : j < CurrentStatusSize := hl ▸ hj
            have := hslots j hj'
            rw [List.getD_eq_getElem?_getD, List.getElem?_eq_getElem hj, Option.getD_some] at this
            rw [this, if_pos]
            unfold CurrentStatusSize at hd hj'
            omega
          · rw [if_neg hd] at hb
            simp at hb
      · intro j hj
        rw [List.length_append, List.length_singleton] at hj
        by_cases hjl : j < outs.length
        · rw [List.getD_eq_getElem?_getD, List.getElem?_append_left hjl,
            ← List.getD_eq_getElem?_getD]
          exact hpos j hjl
        · have hje : j = outs.length := by omega
          subst hje
          rw [List.getD_eq_getElem?_getD, List.getElem?_append_right (le_refl _)]
          simp only [Nat.sub_self, List.getElem?_cons_zero, Option.getD_some]
          rw [hbatch, hlen]
          split_ifs with hd <;> simp [hd])
    evs [] ss [] ⟨h0, rfl, by simp [batchesOf], by simp [batchesOf], by simp⟩ hev
  simpa using key

/-- C1 (window capacity): from a freshly allocated monitor `k` (30 empty slots,
index 0, counters 0) with a non-zero id that is in the catalog, the worker processes
any `N` reports for `k` without panic, and afterwards the window has
`min N 30 ≤ 30` filled slots and `currentUp[k] + currentDown[k] = min N 30`. -/
theorem window_capacity (T : TimeLib) (k : Nat) (ss : ServiceSentinel)
    (evs : List (ReportData × Tick)) (hk : k ≠ 0)
    (hm : ∃ mon, mapGet ss.monitors k = some mon ∧ mon.ID ≠ 0)
    (ht : ∃ today, mapGet ss.serviceStatusToday k = some today)
    (hw : windowOf ss k = List.replicate CurrentStatusSize MonitorHistory.zero)
    (hi : indexOf ss k = 0) (hu : currentUpOf ss k = 0) (hd : currentDownOf ss k = 0)
    (hev : ∀ e ∈ evs, e.1.Data.Id = k) :
    ∃ ss' outs, worker T ss evs = some (ss', outs) ∧
      filledSlots (windowOf ss' k) ≤ 30 ∧
      filledSlots (windowOf ss' k) = min evs.length 30 ∧
      currentUpOf ss' k + currentDownOf ss' k = min evs.length 30 := by
  obtain ⟨ss', outs, hrun, hinv, _⟩ :=
    worker_window_run T k ss evs (windowInv_fresh k ss hm ht hw hi) hev
  obtain ⟨_, _, hlen, hslots, _, hcount⟩ := hinv
  have hfill : filledSlots (windowOf ss' k) = min evs.length 30 := by
    have := filledSlots_of_front k hk (windowOf ss' k) evs.length
      (fun j hj => hslots j (hlen ▸ hj))
    rw [this, hlen]
    rfl
  refine ⟨ss', outs, hrun, ?_, hfill, ?_⟩
  · rw [hfill]; exact Nat.min_le_right _ _
  · cases evs with
    | nil =>
      simp only [worker, Option.some.injEq, Prod.mk.injEq] at hrun
      obtain ⟨rfl, _⟩ := hrun
      simp [hu, hd]
    | cons e rest =>
      rw [hcount (by simp), hfill]

/-- Witness of C1: two reports on the freshly allocated monitor 1. -/
theorem window_capacity_witness :
    ∃ ss' outs,
      worker exampleLib exampleFresh [exampleReport true 3 "", exampleReport false 0 "x"]
        = some (ss', outs) ∧
      filledSlots (windowOf ss' 1) ≤ 30 ∧
      filledSlots (windowOf ss' 1) = min 2 30 ∧
      currentUpOf ss' 1 + currentDownOf ss' 1 = min 2 30 :=
  window_capacity exampleLib 1 exampleFresh
    [exampleReport true 3 "", exampleReport false 0 "x"] (by decide)
    ⟨exampleMonitor, rfl, by decide⟩ ⟨_, rfl⟩ rfl rfl rfl rfl (by decide)

/-- C2 (batch boundary): from a freshly allocated monitor `k`, the worker processes
any `N` reports for `k` without panic and issues exactly `N / 30` persistence
batches, each of 30 records of `k`; the `j`-th report (counted from 1) issues a batch
iff 30 divides `j`; and the window index afterwards is `N mod 30`, hence 0 right
after each batch. -/
theorem batch_boundary (T : TimeLib) (k : Nat) (ss : ServiceSentinel)
    (evs : List (ReportData × Tick))
    (hm : ∃ mon, mapGet ss.monitors k = some mon ∧ mon.ID ≠ 0)
    (ht : ∃ today, mapGet ss.serviceStatusToday k = some today)
    (hw : windowOf ss k = List.replicate CurrentStatusSize MonitorHistory.zero)
    (hi : indexOf ss k = 0)
    (hev : ∀ e ∈ evs, e.1.Data.Id = k) :
    ∃ ss' outs, worker T ss evs = some (ss', outs) ∧
      outs.length = evs.length ∧
      (batchesOf outs).length = evs.length / 30 ∧
      (∀ b ∈ batchesOf outs, b.length = 30 ∧ ∀ h ∈ b, h.MonitorID = k) ∧
      (∀ j, j < outs.length →
        ((outs.getD j StepOutput.empty).batch ≠ none ↔ (j + 1) % 30 = 0)) ∧
      indexOf ss' k = evs.length % 30 := by
  obtain ⟨ss', outs, hrun, hinv, hlen, hcount, hall, hpos⟩ :=
    worker_window_run T k ss evs (windowInv_fresh k ss hm ht hw hi) hev
  exact ⟨ss', outs, hrun, hlen, hcount, hall, hpos, hinv.2.2.2.2.1⟩

/-- Witness of C2: thirty-one reports on the freshly allocated monitor 1. -/
theorem batch_boundary_witness :
    ∃ ss' outs,
      worker exampleLib exampleFresh (List.replicate 31 (exampleReport true 3 ""))
        = some (ss', outs) ∧
      outs.length = (List.replicate 31 (exampleReport true 3 "")).length ∧
      (batchesOf outs).length = (List.replicate 31 (exampleReport true 3 "")).length / 30 ∧
      (∀ b ∈ batchesOf outs, b.length = 30 ∧ ∀ h ∈ b, h.MonitorID = 1) ∧
      (∀ j, j < outs.length →
        ((outs.getD j StepOutput.empty).batch ≠ none ↔ (j + 1) % 30 = 0)) ∧
      indexOf ss' 1 = (List.replicate 31 (exampleReport true 3 "")).length % 30 :=
  batch_boundary exampleLib 1 exampleFresh (List.replicate 31 (exampleReport true 3 ""))
    ⟨exampleMonitor, rfl, by decide⟩ ⟨_, rfl⟩ rfl rfl
    (by intro e he; rw [List.eq_of_mem_replicate he]; rfl)

/-- A successful report appends its delay to the delays of the successful reports. -/
theorem successfulDelays_append_ok (done : List (ReportData × Tick)) (e : ReportData × Tick)
    (h : e.1.Data.Successful = true) :
    successfulDelays (done ++ [e]) = successfulDelays done ++ [e.1.Data.Delay] := by
  simp [successfulDelays, List.filter_append, h]

/-- A failed report leaves the delays of the successful reports as they were. -/
theorem successfulDelays_append_fail (done : List (ReportData × Tick)) (e : ReportData × Tick)
    (h : e.1.Data.Successful = false) :
    successfulDelays (done ++ [e]) = successfulDelays done := by
  simp [successfulDelays, List.filter_append, h]

/-- A successful report leaves the number of failed reports as it was. -/
theorem failedCount_append_ok (done : List (ReportData × Tick)) (e : ReportData × Tick)
    (h : e.1.Data.Successful = true) :
    failedCount (done ++ [e]) = failedCount done := by
  simp [failedCount, List.filter_append, h]

/-- A failed report adds one to the number of failed reports. -/
theorem failedCount_append_fail (done : List (ReportData × Tick)) (e : ReportData × Tick)
    (h : e.1.Data.Successful = false) :
    failedCount (done ++ [e]) = failedCount done + 1 := by
  simp [failedCount, List.filter_append, h]

/-- On zeroed today-stats the day-rollover reset changes nothing. -/
theorem updateToday_zero (rolled : Bool) (mh : MonitorHistory) :
    updateToday rolled { Up := 0, Down := 0, Delay := 0 } mh
      = updateToday false { Up := 0, Down := 0, Delay := 0 } mh := by
  cases rolled <;> simp [updateToday]

/-- One report of the day `day` for `k` extends the today-stats by that report. -/
theorem todayInv_step (T : TimeLib) (k : Nat) (day : String)
    (done : List (ReportData × Tick)) (ss : ServiceSentinel) (e : ReportData × Tick)
    (h : TodayInv k day done ss) (hr : e.1.Data.Id = k) (hday : e.2.nowDate = day) :
    ∃ ss' out, workerStep T ss e.1 e.2 = some (ss', out) ∧
      TodayInv k day (done ++ [e]) ss' := by
  obtain ⟨r, c⟩ := e
  simp only at hr hday ⊢
  subst hr hday
  obtain ⟨⟨mon, hm, hid⟩, hlen, hidx, hdate, today, ht, hzero, hup, hdown, hmean⟩ := h
  have hi : indexOf ss r.Data.Id < (windowOf ss r.Data.Id).length := by rw [hlen]; exact hidx
  obtain ⟨ss', out, hstep, hmon, htoday, hlatest, hdata, hindex, _⟩ :=
    workerStep_known T ss r c mon today hm hid ht hi
  have hupd : updateToday (decide (c.nowDate ≠ latestDateOf ss r.Data.Id)) today
      (PB2MonitorHistory r.Data) = updateToday false today (PB2MonitorHistory r.Data) := by
    by_cases hd : done = []
    · rw [hzero hd]; exact updateToday_zero _ _
    · rw [hdate hd]; simp
  refine ⟨ss', out, hstep, ⟨mon, by rw [hmon]; exact hm, hid⟩, ?_, ?_, ?_, ?_⟩
  · simp only [windowOf, hdata, mapGet_mapSet_self, Option.getD_some, List.length_set]
    exact hlen
  · rw [indexOf, hindex, mapGet_mapSet_self, Option.getD_some]
    unfold CurrentStatusSize at hidx ⊢
    split_ifs <;> omega
  · intro _
    simp only [latestDateOf, hlatest]
    split_ifs with hne
    · simp [mapGet_mapSet_self]
    · simpa [latestDateOf] using (not_not.mp hne).symm
  · refine ⟨_, by rw [htoday]; exact mapGet_mapSet_self _ _ _, by simp, ?_⟩
    rw [hupd]
    cases hs : r.Data.Successful with
    | true =>
      rw [successfulDelays_append_ok done (r, c) hs, failedCount_append_ok done (r, c) hs]
      simp only [updateToday, PB2MonitorHistory, hs, if_true, Bool.false_eq_true, if_false,
        List.length_append, List.length_singleton, List.sum_append, List.sum_singleton]
      refine ⟨by rw [hup], hdown, ?_⟩
      rw [← hmean]
      have hne : ((today.Up + 1 : Nat) : ℚ) ≠ 0 := by exact_mod_cast Nat.succ_ne_zero today.Up
      rw [div_mul_cancel₀ _ hne]
    | false =>
      rw [successfulDelays_append_fail done (r, c) hs, failedCount_append_fail done (r, c) hs]
      simp only [updateToday, PB2MonitorHistory, hs, Bool.false_eq_true, if_false]
      exact ⟨hup, by rw [hdown], hmean⟩

/-- C3 (mean of delays, over exact rationals): from zeroed today-stats of a known
monitor `k`, the worker processes any reports for `k` that carry one and the same day
tag without panic, and afterwards `today[k].up` is the number `m` of successful
reports, `today[k].down` the number of failed ones and, if `m > 0`, `today[k].delay`
is the sum of the delays of the successful reports divided by `m`. -/
theorem mean_of_delays (T : TimeLib) (k : Nat) (day : String) (ss : ServiceSentinel)
    (evs : List (ReportData × Tick))
    (hm : ∃ mon, mapGet ss.monitors k = some mon ∧ mon.ID ≠ 0)
    (ht : mapGet ss.serviceStatusToday k = some { Up := 0, Down := 0, Delay := 0 })
    (hlen : (windowOf ss k).length = 30) (hidx : indexOf ss k < 30)
    (hev : ∀ e ∈ evs, e.1.Data.Id = k ∧ e.2.nowDate = day) :
    ∃ ss' outs today, worker T ss evs = some (ss', outs) ∧
      mapGet ss'.serviceStatusToday k = some today ∧
      today.Up = (successfulDelays evs).length ∧
      today.Down = failedCount evs ∧
      (0 < today.Up → today.Delay = (successfulDelays evs).sum / (today.Up : ℚ)) := by
  have key := worker_induct T (fun e => e.1.Data.Id = k ∧ e.2.nowDate = day)
    (fun done ss _ => TodayInv k day done ss)
    (fun done ss _ e hinv he => todayInv_step T k day done ss e hinv he.1 he.2)
    evs [] ss [] ⟨hm, hlen, hidx, fun h => absurd rfl h, _, ht, fun _ => rfl, rfl, rfl, by
      simp [successfulDelays]⟩ hev
  obtain ⟨ss', outs, hrun, _, _, _, _, today, htoday, _, hup, hdown, hmean⟩ := key
  rw [List.nil_append] at hup hdown hmean
  refine ⟨ss', outs, today, hrun, htoday, hup, hdown, ?_⟩
  intro hpos
  have hne : (today.Up : ℚ) ≠ 0 := by exact_mod_cast (Nat.pos_iff_ne_zero.mp hpos)
  rw [← hmean, mul_div_cancel_right₀ _ hne]

/-- Witness of C3: two successful reports with delays 3 and 4 and a failed one. -/
theorem mean_of_delays_witness :
    ∃ ss' outs today,
      worker exampleLib exampleFresh
        [exampleReport true 3 "", exampleReport false 9 "x", exampleReport true 4 ""]
        = some (ss', outs) ∧
      mapGet ss'.serviceStatusToday 1 = some today ∧
      today.Up = (successfulDelays
        [exampleReport true 3 "", exampleReport false 9 "x", exampleReport true 4 ""]).length ∧
      today.Down = failedCount
        [exampleReport true 3 "", exampleReport false 9 "x", exampleReport true 4 ""] ∧
      (0 < today.Up → today.Delay = (successfulDelays
        [exampleReport true 3 "", exampleReport false 9 "x", exampleReport true 4 ""]).sum
          / (today.Up : ℚ)) :=
  mean_of_delays exampleLib 1 "04-Nov-26" exampleFresh
    [exampleReport true 3 "", exampleReport false 9 "x", exampleReport true 4 ""]
    ⟨exampleMonitor, rfl, by decide⟩ rfl rfl (by decide) (by decide)

/-- C4 (notification gate): for a report the worker processes for a known monitor,
with `state` the bucketed state of the recounted window and `last` the value of
`lastStatus[id]` before the report, the status notification
"服务监控：{name} 服务状态：{state}" is emitted iff `monitor.notify` holds and
(`state = "故障"` or (`state ≠ last` and `last ≠ ""`)); afterwards
`lastStatus[id] = state`. -/
theorem notification_gate (T : TimeLib) (ss : ServiceSentinel) (r : ReportData) (c : Tick)
    (mon : Monitor) (today : TodayStatsOfMonitor)
    (hm : mapGet ss.monitors r.Data.Id = some mon) (hid : mon.ID ≠ 0)
    (ht : mapGet ss.serviceStatusToday r.Data.Id = some today)
    (hi : indexOf ss r.Data.Id < (windowOf ss r.Data.Id).length) :
    ∃ ss' out, workerStep T ss r c = some (ss', out) ∧
      bucketedState ss' r.Data.Id =
        getStateStr (upPercent (recount (windowOf ss' r.Data.Id)).1
          (recount (windowOf ss' r.Data.Id)).2) ∧
      (out.statusNotification =
        if mon.Notify = true ∧ (bucketedState ss' r.Data.Id = "故障" ∨
            (bucketedState ss' r.Data.Id ≠ lastStatusOf ss r.Data.Id ∧
              lastStatusOf ss r.Data.Id ≠ ""))
        then some { text := "服务监控：" ++ mon.Name ++ " 服务状态：" ++ bucketedState ss' r.Data.Id,
                    urgent := true }
        else none) ∧
      lastStatusOf ss' r.Data.Id = bucketedState ss' r.Data.Id := by
  obtain ⟨ss', out, hstep, _, _, _, hdata, _, hup, hdown, _, _, _, hnote, hlast⟩ :=
    workerStep_known T ss r c mon today hm hid ht hi
  refine ⟨ss', out, hstep, ?_, hnote, ?_⟩
  · simp only [bucketedState, currentUpOf, currentDownOf, windowOf, hup, hdown, hdata,
      mapGet_mapSet_self, Option.getD_some]
  · rw [lastStatusOf, hlast, Option.getD_some]

/-- Witness of C4: a failed report after one successful probe takes monitor 1 from
"良好" to "故障". -/
theorem notification_gate_witness :
    ∃ ss' out, workerStep exampleLib exampleSeen (exampleReport false 0 "x").1
        (exampleReport false 0 "x").2 = some (ss', out) ∧
      bucketedState ss' 1 =
        getStateStr (upPercent (recount (windowOf ss' 1)).1 (recount (windowOf ss' 1)).2) ∧
      (out.statusNotification =
        if exampleMonitor.Notify = true ∧ (bucketedState ss' 1 = "故障" ∨
            (bucketedState ss' 1 ≠ lastStatusOf exampleSeen 1 ∧ lastStatusOf exampleSeen 1 ≠ ""))
        then some { text := "服务监控：" ++ exampleMonitor.Name ++ " 服务状态：" ++ bucketedState ss' 1,
                    urgent := true }
        else none) ∧
      lastStatusOf ss' 1 = bucketedState ss' 1 :=
  notification_gate exampleLib exampleSeen (exampleReport false 0 "x").1
    (exampleReport false 0 "x").2 exampleMonitor { Up := 0, Down := 0, Delay := 0 }
    rfl (by decide) rfl (by decide)

/-- C5, evaluated on the code: the first report for the freshly allocated monitor 1
is a failed probe; the window then holds one filled slot (`currentUp = 0`,
`currentDown = 1`), yet the bucketed state is "无数据" and not "故障". -/
theorem no_data_with_filled_slot :
    ∃ ss' out, workerStep exampleLib exampleFresh (exampleReport false 0 "x").1
        (exampleReport false 0 "x").2 = some (ss', out) ∧
      filledSlots (windowOf ss' 1) = 1 ∧
      currentUpOf ss' 1 = 0 ∧ currentDownOf ss' 1 = 1 ∧
      upPercent (currentUpOf ss' 1) (currentDownOf ss' 1) = 0 ∧
      bucketedState ss' 1 = "无数据" ∧
      lastStatusOf ss' 1 = "无数据" ∧
      out.statusNotification = none :=
  ⟨_, _, rfl, by decide, by decide, by decide, by decide, by decide, by decide, by decide⟩

/-- C6 (first-notification suppression): for a monitor whose `lastStatus` is empty,
the worker emits a status notification for the report iff the bucketed state computed
for the report is "故障" and `monitor.notify` is true. -/
theorem first_notification_suppression (T : TimeLib) (ss : ServiceSentinel) (r : ReportData)
    (c : Tick) (mon : Monitor) (today : TodayStatsOfMonitor)
    (hm : mapGet ss.monitors r.Data.Id = some mon) (hid : mon.ID ≠ 0)
    (ht : mapGet ss.serviceStatusToday r.Data.Id = some today)
    (hi : indexOf ss r.Data.Id < (windowOf ss r.Data.Id).length)
    (hfirst : lastStatusOf ss r.Data.Id = "") :
    ∃ ss' out, workerStep T ss r c = some (ss', out) ∧
      (out.statusNotification ≠ none ↔
        (bucketedState ss' r.Data.Id = "故障" ∧ mon.Notify = true)) ∧
      (out.statusNotification ≠ none →
        out.statusNotification =
          some { text := "服务监控：" ++ mon.Name ++ " 服务状态：" ++ "故障", urgent := true }) := by
  obtain ⟨ss', out, hstep, _, _, _, _, _, _, _, _, _, _, hnote, _⟩ :=
    workerStep_known T ss r c mon today hm hid ht hi
  rw [hfirst] at hnote
  refine ⟨ss', out, hstep, ?_, ?_⟩
  · rw [hnote]
    by_cases h1 : bucketedState ss' r.Data.Id = "故障" <;> by_cases h2 : mon.Notify = true <;>
      simp [h1, h2]
  · rw [hnote]
    by_cases h1 : bucketedState ss' r.Data.Id = "故障" <;> by_cases h2 : mon.Notify = true <;>
      simp [h1, h2]

/-- Witness of C6: a successful report on a window of four failed probes gives 20%,
"故障", and the notification is sent although `lastStatus` was empty. -/
theorem first_notification_suppression_witness :
    ∃ ss' out, workerStep exampleLib exampleUnseen (exampleReport true 3 "").1
        (exampleReport true 3 "").2 = some (ss', out) ∧
      (out.statusNotification ≠ none ↔
        (bucketedState ss' 1 = "故障" ∧ exampleMonitor.Notify = true)) ∧
      (out.statusNotification ≠ none →
        out.statusNotification =
          some { text := "服务监控：" ++ exampleMonitor.Name ++ " 服务状态：" ++ "故障", urgent := true }) :=
  first_notification_suppression exampleLib exampleUnseen (exampleReport true 3 "").1
    (exampleReport true 3 "").2 exampleMonitor { Up := 0, Down := 0, Delay := 0 }
    rfl (by decide) rfl (by decide) rfl

/-- A list without the separator is a single segment. -/
theorem splitChars_no_sep (sep : Char) (s : List Char) (h : sep ∉ s) :
    splitChars sep s = [s] := by
  induction s with
  | nil => rfl
  | cons c cs ih =>
    have hc : ¬ c = sep := fun e => h (e ▸ List.mem_cons_self _ _)
    have hcs : sep ∉ cs := fun hm => h (List.mem_cons_of_mem _ hm)
    simp [splitChars, hc, ih hcs]

/-- The first segment ends at the first separator. -/
theorem splitChars_append_sep (sep : Char) (a b : List Char) (h : sep ∉ a) :
    splitChars sep (a ++ sep :: b) = a :: splitChars sep b := by
  induction a with
  | nil => simp [splitChars]
  | cons c cs ih =>
    have hc : ¬ c = sep := fun e => h (e ▸ List.mem_cons_self _ _)
    have hcs : sep ∉ cs := fun hm => h (List.mem_cons_of_mem _ hm)
    simp [splitChars, hc, ih hcs]

/-- Splitting `issuer|notAfter` gives the two parts. -/
theorem stringsSplit_descriptor (issuer notAfter : String)
    (hi : '|' ∉ issuer.data) (hn : '|' ∉ notAfter.data) :
    stringsSplit (issuer ++ "|" ++ notAfter) '|' = [issuer, notAfter] := by
  have hd : (issuer ++ "|" ++ notAfter).data = issuer.data ++ '|' :: notAfter.data := by
    simp [String.data_append]
  simp [stringsSplit, hd, splitChars_append_sep _ _ _ hi, splitChars_no_sep _ _ hn]

/-- A string with a non-empty prefix is not empty. -/
theorem ne_empty_of_hasPrefix (s p : String) (h : hasPrefix s p = true) (hp : p ≠ "") :
    s ≠ "" := by
  intro hs
  subst hs
  apply hp
  unfold hasPrefix at h
  have : p.data = [] := by
    cases hpd : p.data with
    | nil => rfl
    | cons c cs => rw [hpd] at h; simp [List.isPrefixOf] at h
  exact String.ext this

/-- The SSL part on an error report: the cache is untouched and `errMsg` is the data
unless it ends in one of the three transient suffixes. -/
theorem sslCheck_error (T : TimeLib) (cache : GoMap String) (mh : MonitorHistory) (now : GoTime)
    (h : hasPrefix mh.Data "SSL证书错误：" = true) :
    sslCheck T cache mh now =
      (cache,
        if hasSuffix mh.Data "timeout" = false ∧ hasSuffix mh.Data "EOF" = false
            ∧ hasSuffix mh.Data "timed out" = false then mh.Data else "") := by
  unfold sslCheck
  rw [if_pos h]
  cases hasSuffix mh.Data "timeout" <;> cases hasSuffix mh.Data "EOF" <;>
    cases hasSuffix mh.Data "timed out" <;> simp

/-- The SSL part on a descriptor `issuer|notAfter`: the cache is seeded when empty,
and `errMsg` is the change message, else the expiry message, else empty. -/
theorem sslCheck_descriptor (T : TimeLib) (cache : GoMap String) (mh : MonitorHistory)
    (now : GoTime) (issuer notAfter : String)
    (hdata : mh.Data = issuer ++ "|" ++ notAfter)
    (hi : '|' ∉ issuer.data) (hn : '|' ∉ notAfter.data)
    (hpre : hasPrefix mh.Data "SSL证书错误：" = false) :
    sslCheck T cache mh now =
      (if (mapGet cache mh.MonitorID).getD "" = "" then mapSet cache mh.MonitorID mh.Data
        else cache,
       if (mapGet cache mh.MonitorID).getD "" ≠ "" ∧
           descriptorIssuer ((mapGet cache mh.MonitorID).getD "") ≠ issuer ∧
           (T.parseOrZero notAfter).nanos ≠
             (descriptorNotAfter T ((mapGet cache mh.MonitorID).getD "")).nanos then
         "SSL证书变更，旧：" ++ descriptorIssuer ((mapGet cache mh.MonitorID).getD "") ++ ", "
           ++ T.format (descriptorNotAfter T ((mapGet cache mh.MonitorID).getD ""))
           ++ " 过期；新：" ++ issuer ++ ", " ++ T.format (T.parseOrZero notAfter) ++ " 过期。"
       else if (T.parseOrZero notAfter).nanos < now.nanos + 7 * dayNanos then
         "SSL证书将在七天内过期，过期时间：" ++ T.format (T.parseOrZero notAfter) ++ "。"
       else "") := by
  have hsplit := stringsSplit_descriptor issuer notAfter hi hn
  unfold sslCheck
  rw [if_neg (by rw [hpre]; decide)]
  simp only [hdata, hsplit]
  rw [← hdata]
  by_cases hc : (mapGet cache mh.MonitorID).getD "" = ""
  · simp [hc, mapGet_mapSet_self, hdata, hsplit, GoTime.Before, GoTime.AddDays, GoTime.Equal]
  · simp [hc, descriptorIssuer, descriptorNotAfter, GoTime.Before, GoTime.AddDays, GoTime.Equal]

/-- A string that ends in a non-empty string is not empty. -/
theorem append_ne_empty (a b : String) (hb : b ≠ "") : a ++ b ≠ "" := by
  intro h
  apply hb
  have hd := congrArg String.data h
  rw [String.data_append] at hd
  exact String.ext (List.append_eq_nil.mp hd).2

/-- C7, evaluated on the code: the cache of monitor 1 holds the descriptor of issuer
"R3"; two reports in a row carry the descriptor of a new certificate. After both the
cache still holds the old descriptor, not the data of the reports, and the second
report raises the change notification again. -/
theorem ssl_cache_keeps_first_descriptor :
    ∃ ss' out1 out2,
      worker exampleLib exampleCached
        [exampleReport true 3 "DigiCert|2099-06-01 00:00:00 +0000 UTC",
         exampleReport true 3 "DigiCert|2099-06-01 00:00:00 +0000 UTC"]
        = some (ss', [out1, out2]) ∧
      sslCertOf ss' 1 = "R3|2099-01-01 00:00:00 +0000 UTC" ∧
      sslCertOf ss' 1 ≠ "DigiCert|2099-06-01 00:00:00 +0000 UTC" ∧
      out1.sslNotification ≠ none ∧
      out2.sslNotification = out1.sslNotification :=
  ⟨_, _, _, rfl, by decide, by decide, by decide, by decide⟩

/-- C8 (SSL change notification): for a monitor with `notify = true` and a report
whose data is `issuer|notAfter` with `notAfter` parseable and not within 7 days of
now, the worker emits an SSL notification iff the cache was seeded before the report
and both the issuer and the expiry differ from the cached ones, and the notification
is the change message; a first observation seeds the cache with the data and emits
nothing. -/
theorem ssl_change_notification (T : TimeLib) (ss : ServiceSentinel) (r : ReportData)
    (c : Tick) (mon : Monitor) (today : TodayStatsOfMonitor) (issuer notAfter : String)
    (t : GoTime)
    (hm : mapGet ss.monitors r.Data.Id = some mon) (hid : mon.ID ≠ 0)
    (ht : mapGet ss.serviceStatusToday r.Data.Id = some today)
    (hi : indexOf ss r.Data.Id < (windowOf ss r.Data.Id).length)
    (hnotify : mon.Notify = true)
    (hdata : r.Data.Data = issuer ++ "|" ++ notAfter)
    (hbi : '|' ∉ issuer.data) (hbn : '|' ∉ notAfter.data)
    (hpre : hasPrefix r.Data.Data "SSL证书错误：" = false)
    (hparse : T.parse notAfter = some t)
    (hfar : ¬ t.nanos < c.now.nanos + 7 * dayNanos) :
    ∃ ss' out, workerStep T ss r c = some (ss', out) ∧
      (out.sslNotification ≠ none ↔
        (sslCertOf ss r.Data.Id ≠ "" ∧
          descriptorIssuer (sslCertOf ss r.Data.Id) ≠ issuer ∧
          (descriptorNotAfter T (sslCertOf ss r.Data.Id)).nanos ≠ t.nanos)) ∧
      (out.sslNotification ≠ none →
        out.sslNotification = some
          { text := "服务监控：" ++ mon.Name ++ " " ++
              ("SSL证书变更，旧：" ++ descriptorIssuer (sslCertOf ss r.Data.Id) ++ ", "
                ++ T.format (descriptorNotAfter T (sslCertOf ss r.Data.Id))
                ++ " 过期；新：" ++ issuer ++ ", " ++ T.format t ++ " 过期。"),
            urgent := true }) ∧
      (sslCertOf ss r.Data.Id = "" →
        sslCertOf ss' r.Data.Id = r.Data.Data ∧ out.sslNotification = none) := by
  obtain ⟨ss', out, hstep, _, _, _, _, _, _, _, hcache, _, hssl, _⟩ :=
    workerStep_known T ss r c mon today hm hid ht hi
  have hpz : T.parseOrZero notAfter = t := by simp [TimeLib.parseOrZero, hparse]
  have hchk := sslCheck_descriptor T ss.sslCertCache (PB2MonitorHistory r.Data) c.now issuer
    notAfter hdata hbi hbn hpre
  rw [hpz] at hchk
  simp only [PB2MonitorHistory] at hchk
  rw [if_neg hfar] at hchk
  change sslCheck T ss.sslCertCache (PB2MonitorHistory r.Data) c.now = _ at hchk
  rw [hchk] at hssl hcache
  simp only [hnotify, and_true] at hssl
  have hmsg : ∀ a : String, a ++ " 过期。" ≠ "" := fun a => append_ne_empty a _ (by decide)
  by_cases hcond : sslCertOf ss r.Data.Id ≠ "" ∧
      descriptorIssuer (sslCertOf ss r.Data.Id) ≠ issuer ∧
      (descriptorNotAfter T (sslCertOf ss r.Data.Id)).nanos ≠ t.nanos
  · have hcond' : (mapGet ss.sslCertCache r.Data.Id).getD "" ≠ "" ∧
        descriptorIssuer ((mapGet ss.sslCertCache r.Data.Id).getD "") ≠ issuer ∧
        t.nanos ≠ (descriptorNotAfter T ((mapGet ss.sslCertCache r.Data.Id).getD "")).nanos :=
      ⟨hcond.1, hcond.2.1, fun e => hcond.2.2 e.symm⟩
    rw [if_pos hcond', if_pos (hmsg _)] at hssl
    refine ⟨ss', out, hstep, ?_, ?_, ?_⟩
    · rw [hssl]; simp [hcond]
    · intro _; rw [hssl]; rfl
    · intro h; exact absurd h hcond.1
  · have hcond' : ¬ ((mapGet ss.sslCertCache r.Data.Id).getD "" ≠ "" ∧
        descriptorIssuer ((mapGet ss.sslCertCache r.Data.Id).getD "") ≠ issuer ∧
        t.nanos ≠ (descriptorNotAfter T ((mapGet ss.sslCertCache r.Data.Id).getD "")).nanos) :=
      fun h => hcond ⟨h.1, h.2.1, fun e => h.2.2 e.symm⟩
    rw [if_neg hcond', if_neg (by simp)] at hssl
    refine ⟨ss', out, hstep, ?_, ?_, ?_⟩
    · rw [hssl]; simp [hcond]
    · intro h; exact absurd hssl h
    · intro h
      refine ⟨?_, hssl⟩
      have h' : (mapGet ss.sslCertCache r.Data.Id).getD "" = "" := h
      rw [sslCertOf, hcache]
      simp only [h', if_true, mapGet_mapSet_self, Option.getD_some]

/-- Witness of C8: the cache of monitor 1 holds the certificate of issuer "R3" and
the report carries the certificate of another issuer with another expiry. -/
theorem ssl_change_notification_witness :
    ∃ ss' out, workerStep exampleLib exampleCached
        (exampleReport true 3 "DigiCert|2099-06-01 00:00:00 +0000 UTC").1
        (exampleReport true 3 "DigiCert|2099-06-01 00:00:00 +0000 UTC").2 = some (ss', out) ∧
      (out.sslNotification ≠ none ↔
        (sslCertOf exampleCached 1 ≠ "" ∧
          descriptorIssuer (sslCertOf exampleCached 1) ≠ "DigiCert" ∧
          (descriptorNotAfter exampleLib (sslCertOf exampleCached 1)).nanos
            ≠ (1151 * dayNanos : Int))) ∧
      (out.sslNotification ≠ none →
        out.sslNotification = some
          { text := "服务监控：" ++ exampleMonitor.Name ++ " " ++
              ("SSL证书变更，旧：" ++ descriptorIssuer (sslCertOf exampleCached 1) ++ ", "
                ++ exampleLib.format (descriptorNotAfter exampleLib (sslCertOf exampleCached 1))
                ++ " 过期；新：" ++ "DigiCert" ++ ", "
                ++ exampleLib.format { nanos := 1151 * dayNanos, zoneOffset := 0 } ++ " 过期。"),
            urgent := true }) ∧
      (sslCertOf exampleCached 1 = "" →
        sslCertOf ss' 1 = "DigiCert|2099-06-01 00:00:00 +0000 UTC" ∧
          out.sslNotification = none) :=
  ssl_change_notification exampleLib exampleCached
    (exampleReport true 3 "DigiCert|2099-06-01 00:00:00 +0000 UTC").1
    (exampleReport true 3 "DigiCert|2099-06-01 00:00:00 +0000 UTC").2
    exampleMonitor { Up := 0, Down := 0, Delay := 0 } "DigiCert" "2099-06-01 00:00:00 +0000 UTC"
    { nanos := 1151 * dayNanos, zoneOffset := 0 }
    rfl (by decide) rfl (by decide) rfl (by decide) (by decide) (by decide) (by decide)
    (by decide) (by decide)

/-- C9 (SSL expiry alarm): for a monitor with `notify = true` and a report whose data
is `issuer|notAfter` with `notAfter` parseable, and with the cache empty or holding
the same issuer, the worker emits the expiry notification iff `notAfter` is strictly
before now + 7 days; an expiry 6 days ahead triggers it and one 8 days ahead does
not. -/
theorem ssl_expiry_alarm (T : TimeLib) (ss : ServiceSentinel) (r : ReportData)
    (c : Tick) (mon : Monitor) (today : TodayStatsOfMonitor) (issuer notAfter : String)
    (t : GoTime)
    (hm : mapGet ss.monitors r.Data.Id = some mon) (hid : mon.ID ≠ 0)
    (ht : mapGet ss.serviceStatusToday r.Data.Id = some today)
    (hi : indexOf ss r.Data.Id < (windowOf ss r.Data.Id).length)
    (hnotify : mon.Notify = true)
    (hdata : r.Data.Data = issuer ++ "|" ++ notAfter)
    (hbi : '|' ∉ issuer.data) (hbn : '|' ∉ notAfter.data)
    (hpre : hasPrefix r.Data.Data "SSL证书错误：" = false)
    (hparse : T.parse notAfter = some t)
    (hsame : sslCertOf ss r.Data.Id = "" ∨ descriptorIssuer (sslCertOf ss r.Data.Id) = issuer) :
    ∃ ss' out, workerStep T ss r c = some (ss', out) ∧
      (out.sslNotification =
        if t.nanos < c.now.nanos + 7 * dayNanos then
          some { text := "服务监控：" ++ mon.Name ++ " " ++
                   ("SSL证书将在七天内过期，过期时间：" ++ T.format t ++ "。"),
                 urgent := true }
        else none) ∧
      (t.nanos = c.now.nanos + 6 * dayNanos → out.sslNotification ≠ none) ∧
      (t.nanos = c.now.nanos + 8 * dayNanos → out.sslNotification = none) := by
  obtain ⟨ss', out, hstep, _, _, _, _, _, _, _, _, _, hssl, _⟩ :=
    workerStep_known T ss r c mon today hm hid ht hi
  have hpz : T.parseOrZero notAfter = t := by simp [TimeLib.parseOrZero, hparse]
  have hchk := sslCheck_descriptor T ss.sslCertCache (PB2MonitorHistory r.Data) c.now issuer
    notAfter hdata hbi hbn hpre
  rw [hpz] at hchk
  have hcond : ¬ ((mapGet ss.sslCertCache (PB2MonitorHistory r.Data).MonitorID).getD "" ≠ "" ∧
      descriptorIssuer ((mapGet ss.sslCertCache (PB2MonitorHistory r.Data).MonitorID).getD "")
        ≠ issuer ∧
      t.nanos ≠ (descriptorNotAfter T
        ((mapGet ss.sslCertCache (PB2MonitorHistory r.Data).MonitorID).getD "")).nanos) := by
    intro h
    rcases hsame with h0 | h1
    · exact h.1 h0
    · exact h.2.1 h1
  rw [if_neg hcond] at hchk
  rw [hchk] at hssl
  simp only [hnotify, and_true] at hssl
  have hday : (0 : Int) < dayNanos := by decide
  have hout : out.sslNotification =
      if t.nanos < c.now.nanos + 7 * dayNanos then
        some { text := "服务监控：" ++ mon.Name ++ " " ++
                 ("SSL证书将在七天内过期，过期时间：" ++ T.format t ++ "。"),
               urgent := true }
      else none := by
    rw [hssl]
    by_cases hlt : t.nanos < c.now.nanos + 7 * dayNanos
    · rw [if_pos hlt, if_pos hlt, if_pos (append_ne_empty _ _ (by decide))]
    · rw [if_neg hlt, if_neg hlt, if_neg (by simp)]
  refine ⟨ss', out, hstep, hout, ?_, ?_⟩
  · intro h6
    rw [hout, if_pos (by rw [h6]; linarith)]
    simp
  · intro h8
    rw [hout, if_neg (by rw [h8]; linarith)]

/-- Witness of C9: an expiry 6 days after the clock reading, and one 8 days after. -/
theorem ssl_expiry_alarm_witness :
    (∃ ss' out, workerStep exampleLib exampleFresh
        (exampleReport true 3 "R3|2026-11-10 00:00:00 +0000 UTC").1
        (exampleReport true 3 "R3|2026-11-10 00:00:00 +0000 UTC").2 = some (ss', out) ∧
      (out.sslNotification =
        if (906 * dayNanos : Int) < 900 * dayNanos + 7 * dayNanos then
          some { text := "服务监控：" ++ exampleMonitor.Name ++ " " ++
                   ("SSL证书将在七天内过期，过期时间："
                     ++ exampleLib.format { nanos := 906 * dayNanos, zoneOffset := 0 } ++ "。"),
                 urgent := true }
        else none) ∧
      ((906 * dayNanos : Int) = 900 * dayNanos + 6 * dayNanos → out.sslNotification ≠ none) ∧
      ((906 * dayNanos : Int) = 900 * dayNanos + 8 * dayNanos → out.sslNotification = none)) ∧
    (∃ ss' out, workerStep exampleLib exampleFresh
        (exampleReport true 3 "R3|2026-11-12 00:00:00 +0000 UTC").1
        (exampleReport true 3 "R3|2026-11-12 00:00:00 +0000 UTC").2 = some (ss', out) ∧
      (out.sslNotification =
        if (908 * dayNanos : Int) < 900 * dayNanos + 7 * dayNanos then
          some { text := "服务监控：" ++ exampleMonitor.Name ++ " " ++
                   ("SSL证书将在七天内过期，过期时间："
                     ++ exampleLib.format { nanos := 908 * dayNanos, zoneOffset := 0 } ++ "。"),
                 urgent := true }
        else none) ∧
      ((908 * dayNanos : Int) = 900 * dayNanos + 6 * dayNanos → out.sslNotification ≠ none) ∧
      ((908 * dayNanos : Int) = 900 * dayNanos + 8 * dayNanos → out.sslNotification = none)) :=
  ⟨ssl_expiry_alarm exampleLib exampleFresh
      (exampleReport true 3 "R3|2026-11-10 00:00:00 +0000 UTC").1
      (exampleReport true 3 "R3|2026-11-10 00:00:00 +0000 UTC").2
      exampleMonitor { Up := 0, Down := 0, Delay := 0 } "R3" "2026-11-10 00:00:00 +0000 UTC"
      { nanos := 906 * dayNanos, zoneOffset := 0 }
      rfl (by decide) rfl (by decide) rfl (by decide) (by decide) (by decide) (by decide)
      (by decide) (Or.inl (by decide)),
   ssl_expiry_alarm exampleLib exampleFresh
      (exampleReport true 3 "R3|2026-11-12 00:00:00 +0000 UTC").1
      (exampleReport true 3 "R3|2026-11-12 00:00:00 +0000 UTC").2
      exampleMonitor { Up := 0, Down := 0, Delay := 0 } "R3" "2026-11-12 00:00:00 +0000 UTC"
      { nanos := 908 * dayNanos, zoneOffset := 0 }
      rfl (by decide) rfl (by decide) rfl (by decide) (by decide) (by decide) (by decide)
      (by decide) (Or.inl (by decide))⟩

/-- C10 (SSL transient suppression): for a report for a known monitor whose data
starts with "SSL证书错误：", the worker emits the SSL notification
"服务监控：{name} {data}" iff `monitor.notify` is true and the data ends with none of
"timeout", "EOF", "timed out"; the data "SSL证书错误：read: connection timeout"
produces no SSL notification; and the certificate cache is left as it was. -/
theorem ssl_transient_suppression (T : TimeLib) (ss : ServiceSentinel) (r : ReportData)
    (c : Tick) (mon : Monitor) (today : TodayStatsOfMonitor)
    (hm : mapGet ss.monitors r.Data.Id = some mon) (hid : mon.ID ≠ 0)
    (ht : mapGet ss.serviceStatusToday r.Data.Id = some today)
    (hi : indexOf ss r.Data.Id < (windowOf ss r.Data.Id).length)
    (hpre : hasPrefix r.Data.Data "SSL证书错误：" = true) :
    ∃ ss' out, workerStep T ss r c = some (ss', out) ∧
      (out.sslNotification =
        if mon.Notify = true ∧ hasSuffix r.Data.Data "timeout" = false ∧
            hasSuffix r.Data.Data "EOF" = false ∧ hasSuffix r.Data.Data "timed out" = false
        then some { text := "服务监控：" ++ mon.Name ++ " " ++ r.Data.Data, urgent := true }
        else none) ∧
      (r.Data.Data = "SSL证书错误：read: connection timeout" → out.sslNotification = none) ∧
      ss'.sslCertCache = ss.sslCertCache := by
  obtain ⟨ss', out, hstep, _, _, _, _, _, _, _, hcache, _, hssl, _⟩ :=
    workerStep_known T ss r c mon today hm hid ht hi
  have hchk := sslCheck_error T ss.sslCertCache (PB2MonitorHistory r.Data) c.now hpre
  have hne : r.Data.Data ≠ "" := ne_empty_of_hasPrefix _ _ hpre (by decide)
  rw [hchk] at hssl hcache
  simp only [PB2MonitorHistory] at hssl
  have hout : out.sslNotification =
      if mon.Notify = true ∧ hasSuffix r.Data.Data "timeout" = false ∧
          hasSuffix r.Data.Data "EOF" = false ∧ hasSuffix r.Data.Data "timed out" = false
      then some { text := "服务监控：" ++ mon.Name ++ " " ++ r.Data.Data, urgent := true }
      else none := by
    rw [hssl]
    by_cases hs : hasSuffix r.Data.Data "timeout" = false ∧
        hasSuffix r.Data.Data "EOF" = false ∧ hasSuffix r.Data.Data "timed out" = false
    · by_cases hn : mon.Notify = true
      · rw [if_pos hs, if_pos ⟨hne, hn⟩, if_pos ⟨hn, hs⟩]
      · rw [if_pos hs, if_neg (fun h => hn h.2), if_neg (fun h => hn h.1)]
    · rw [if_neg hs, if_neg (fun h => h.1 rfl), if_neg (fun h => hs h.2)]
  refine ⟨ss', out, hstep, hout, ?_, hcache⟩
  intro hd
  have hto : hasSuffix "SSL证书错误：read: connection timeout" "timeout" = true := by decide
  rw [hout, if_neg]
  rw [hd, hto]
  exact fun h => Bool.noConfusion h.2.1

/-- Witness of C10: a certificate error that is not transient is notified. -/
theorem ssl_transient_suppression_witness :
    ∃ ss' out, workerStep exampleLib exampleCached
        (exampleReport false 0 "SSL证书错误：x509: certificate has expired").1
        (exampleReport false 0 "SSL证书错误：x509: certificate has expired").2 = some (ss', out) ∧
      (out.sslNotification =
        if exampleMonitor.Notify = true ∧
            hasSuffix "SSL证书错误：x509: certificate has expired" "timeout" = false ∧
            hasSuffix "SSL证书错误：x509: certificate has expired" "EOF" = false ∧
            hasSuffix "SSL证书错误：x509: certificate has expired" "timed out" = false
        then some { text := "服务监控：" ++ exampleMonitor.Name ++ " "
                      ++ "SSL证书错误：x509: certificate has expired", urgent := true }
        else none) ∧
      ("SSL证书错误：x509: certificate has expired" = "SSL证书错误：read: connection timeout" →
        out.sslNotification = none) ∧
      ss'.sslCertCache = exampleCached.sslCertCache :=
  ssl_transient_suppression exampleLib exampleCached
    (exampleReport false 0 "SSL证书错误：x509: certificate has expired").1
    (exampleReport false 0 "SSL证书错误：x509: certificate has expired").2
    exampleMonitor { Up := 0, Down := 0, Delay := 0 } rfl (by decide) rfl (by decide) (by decide)

/-- `OnMonitorDelete` removes the key from the eight maps it names. -/
theorem OnMonitorDelete_removes (ss : ServiceSentinel) (cache : PageCache) (id : Nat) :
    mapGet (OnMonitorDelete ss cache id).1.monitors id = none ∧
    mapGet (OnMonitorDelete ss cache id).1.serviceCurrentStatusData id = none ∧
    mapGet (OnMonitorDelete ss cache id).1.serviceCurrentStatusIndex id = none ∧
    mapGet (OnMonitorDelete ss cache id).1.latestDate id = none ∧
    mapGet (OnMonitorDelete ss cache id).1.lastStatus id = none ∧
    mapGet (OnMonitorDelete ss cache id).1.serviceResponseDataStoreCurrentUp id = none ∧
    mapGet (OnMonitorDelete ss cache id).1.serviceResponseDataStoreCurrentDown id = none ∧
    mapGet (OnMonitorDelete ss cache id).1.sslCertCache id = none ∧
    (OnMonitorDelete ss cache id).2 = none := by
  simp [OnMonitorDelete, mapGet_mapDelete_self]

/-- `OnMonitorDelete` does not touch the today-stats. -/
theorem OnMonitorDelete_today (ss : ServiceSentinel) (cache : PageCache) (id : Nat) :
    (OnMonitorDelete ss cache id).1.serviceStatusToday = ss.serviceStatusToday := rfl

/-- C11, evaluated on the code: monitor 1 has an entry in every per-monitor map;
after `OnMonitorDelete(1)` the catalog, window, index, latestDate, lastStatus,
counters and SSL cache lack the key 1, but the today-stats still hold the record of
monitor 1. -/
theorem delete_keeps_today_stats :
    mapGet (OnMonitorDelete exampleBusy none 1).1.monitors 1 = none ∧
    mapGet (OnMonitorDelete exampleBusy none 1).1.serviceCurrentStatusData 1 = none ∧
    mapGet (OnMonitorDelete exampleBusy none 1).1.serviceCurrentStatusIndex 1 = none ∧
    mapGet (OnMonitorDelete exampleBusy none 1).1.latestDate 1 = none ∧
    mapGet (OnMonitorDelete exampleBusy none 1).1.lastStatus 1 = none ∧
    mapGet (OnMonitorDelete exampleBusy none 1).1.serviceResponseDataStoreCurrentUp 1 = none ∧
    mapGet (OnMonitorDelete exampleBusy none 1).1.serviceResponseDataStoreCurrentDown 1 = none ∧
    mapGet (OnMonitorDelete exampleBusy none 1).1.sslCertCache 1 = none ∧
    mapGet (OnMonitorDelete exampleBusy none 1).1.serviceStatusToday 1
      = some { Up := 1, Down := 0, Delay := 3 } :=
  ⟨rfl, rfl, rfl, rfl, rfl, rfl, rfl, rfl, rfl⟩

/-- C12 (delete isolation): for `k' ≠ k`, `OnMonitorDelete(k)` leaves the entry of
`k'` in every per-monitor map (catalog, window, index, latestDate, lastStatus,
currentUp, currentDown, SSL cache, today-stats) exactly as it was. -/
theorem delete_isolation (ss : ServiceSentinel) (cache : PageCache) (k k' : Nat)
    (hne : k' ≠ k) :
    mapGet (OnMonitorDelete ss cache k).1.monitors k' = mapGet ss.monitors k' ∧
    mapGet (OnMonitorDelete ss cache k).1.serviceCurrentStatusData k'
      = mapGet ss.serviceCurrentStatusData k' ∧
    mapGet (OnMonitorDelete ss cache k).1.serviceCurrentStatusIndex k'
      = mapGet ss.serviceCurrentStatusIndex k' ∧
    mapGet (OnMonitorDelete ss cache k).1.latestDate k' = mapGet ss.latestDate k' ∧
    mapGet (OnMonitorDelete ss cache k).1.lastStatus k' = mapGet ss.lastStatus k' ∧
    mapGet (OnMonitorDelete ss cache k).1.serviceResponseDataStoreCurrentUp k'
      = mapGet ss.serviceResponseDataStoreCurrentUp k' ∧
    mapGet (OnMonitorDelete ss cache k).1.serviceResponseDataStoreCurrentDown k'
      = mapGet ss.serviceResponseDataStoreCurrentDown k' ∧
    mapGet (OnMonitorDelete ss cache k).1.sslCertCache k' = mapGet ss.sslCertCache k' ∧
    mapGet (OnMonitorDelete ss cache k).1.serviceStatusToday k'
      = mapGet ss.serviceStatusToday k' := by
  simp only [OnMonitorDelete, mapGet_mapDelete_ne _ _ _ hne, and_self]

/-- Witness of C12: deleting monitor 1 leaves the entries of monitor 2. -/
theorem delete_isolation_witness :
    mapGet (OnMonitorDelete exampleTwo none 1).1.monitors 2 = mapGet exampleTwo.monitors 2 ∧
    mapGet (OnMonitorDelete exampleTwo none 1).1.serviceCurrentStatusData 2
      = mapGet exampleTwo.serviceCurrentStatusData 2 ∧
    mapGet (OnMonitorDelete exampleTwo none 1).1.serviceCurrentStatusIndex 2
      = mapGet exampleTwo.serviceCurrentStatusIndex 2 ∧
    mapGet (OnMonitorDelete exampleTwo none 1).1.latestDate 2 = mapGet exampleTwo.latestDate 2 ∧
    mapGet (OnMonitorDelete exampleTwo none 1).1.lastStatus 2 = mapGet exampleTwo.lastStatus 2 ∧
    mapGet (OnMonitorDelete exampleTwo none 1).1.serviceResponseDataStoreCurrentUp 2
      = mapGet exampleTwo.serviceResponseDataStoreCurrentUp 2 ∧
    mapGet (OnMonitorDelete exampleTwo none 1).1.serviceResponseDataStoreCurrentDown 2
      = mapGet exampleTwo.serviceResponseDataStoreCurrentDown 2 ∧
    mapGet (OnMonitorDelete exampleTwo none 1).1.sslCertCache 2
      = mapGet exampleTwo.sslCertCache 2 ∧
    mapGet (OnMonitorDelete exampleTwo none 1).1.serviceStatusToday 2
      = mapGet exampleTwo.serviceStatusToday 2 :=
  delete_isolation exampleTwo none 1 2 (by decide)

/-- The recount loop from any starting pair of counters adds the successful filled
slots to the first and the failed filled slots to the second. -/
theorem recount_foldl_counts (w : List MonitorHistory) (acc : Nat × Nat) :
    w.foldl
      (fun acc h =>
        if h.MonitorID > 0 then
          if h.Successful then (acc.1 + 1, acc.2) else (acc.1, acc.2 + 1)
        else acc) acc = (acc.1 + successfulSlots w, acc.2 + failedSlots w) := by
  induction w generalizing acc with
  | nil => simp [successfulSlots, failedSlots]
  | cons h t ih =>
    rw [List.foldl_cons, ih]
    unfold successfulSlots failedSlots
    rw [List.countP_cons, List.countP_cons]
    by_cases hf : h.MonitorID > 0
    · cases hs : h.Successful
      · simp [hf, hs]; omega
      · simp [hf, hs]; omega
    · simp [hf]

/-- The recount loop yields the numbers of successful and of failed filled slots. -/
theorem recount_counts (w : List MonitorHistory) :
    recount w = (successfulSlots w, failedSlots w) := by
  have h := recount_foldl_counts w (0, 0)
  simpa [recount] using h

/-- C14 (day rollover of today-stats): when the worker processes a report for a
known monitor whose day tag differs from `latestDate[id]`, afterwards
`latestDate[id]` is the new tag and `today[id]` reflects that report alone
(`up + down = 1`, delay the report's delay if it succeeded and 0 otherwise); when the
tag equals `latestDate[id]` the report is accumulated onto the previous today-stats;
in both cases the today-stats and `latestDate` of every other monitor are
unchanged. -/
theorem day_rollover (T : TimeLib) (ss : ServiceSentinel) (r : ReportData) (c : Tick)
    (mon : Monitor) (today : TodayStatsOfMonitor)
    (hm : mapGet ss.monitors r.Data.Id = some mon) (hid : mon.ID ≠ 0)
    (ht : mapGet ss.serviceStatusToday r.Data.Id = some today)
    (hi : indexOf ss r.Data.Id < (windowOf ss r.Data.Id).length) :
    ∃ ss' out today', workerStep T ss r c = some (ss', out) ∧
      mapGet ss'.serviceStatusToday r.Data.Id = some today' ∧
      latestDateOf ss' r.Data.Id = c.nowDate ∧
      (c.nowDate ≠ latestDateOf ss r.Data.Id →
        today'.Up + today'.Down = 1 ∧
        today'.Up = (if r.Data.Successful then 1 else 0) ∧
        today'.Delay = (if r.Data.Successful then r.Data.Delay else 0)) ∧
      (c.nowDate = latestDateOf ss r.Data.Id →
        today' = (if r.Data.Successful then
            { Up := today.Up + 1, Down := today.Down,
              Delay := (today.Delay * (today.Up : ℚ) + r.Data.Delay)
                / ((today.Up + 1 : Nat) : ℚ) }
          else { Up := today.Up, Down := today.Down + 1, Delay := today.Delay })) ∧
      (∀ k, k ≠ r.Data.Id →
        mapGet ss'.serviceStatusToday k = mapGet ss.serviceStatusToday k ∧
        mapGet ss'.latestDate k = mapGet ss.latestDate k) := by
  obtain ⟨ss', out, hstep, _, htoday, hlatest, _⟩ :=
    workerStep_known T ss r c mon today hm hid ht hi
  refine ⟨ss', out, _, hstep, by rw [htoday]; exact mapGet_mapSet_self _ _ _, ?_, ?_, ?_, ?_⟩
  · rw [latestDateOf, hlatest]
    split_ifs with hne
    · simp [mapGet_mapSet_self]
    · simpa [latestDateOf] using (not_not.mp hne).symm
  · intro hne
    cases hs : r.Data.Successful <;> simp [updateToday, PB2MonitorHistory, hne, hs]
  · intro heq
    cases hs : r.Data.Successful <;> simp [updateToday, PB2MonitorHistory, heq, hs]
  · intro k hk
    rw [htoday, hlatest, mapGet_mapSet_ne _ _ _ _ hk]
    refine ⟨rfl, ?_⟩
    split_ifs
    · exact mapGet_mapSet_ne _ _ _ _ hk
    · rfl

/-- Witness of C14: monitor 1 was last seen on another day and reports a success. -/
theorem day_rollover_witness :
    ∃ ss' out today', workerStep exampleLib exampleTwo (exampleReport true 5 "").1
        { nowDate := "05-Nov-26", now := { nanos := 901 * dayNanos, zoneOffset := 0 } }
        = some (ss', out) ∧
      mapGet ss'.serviceStatusToday 1 = some today' ∧
      latestDateOf ss' 1 = "05-Nov-26" ∧
      ("05-Nov-26" ≠ latestDateOf exampleTwo 1 →
        today'.Up + today'.Down = 1 ∧
        today'.Up = (if true then 1 else 0) ∧
        today'.Delay = (if true then 5 else 0)) ∧
      ("05-Nov-26" = latestDateOf exampleTwo 1 →
        today' = (if true then
            { Up := 1 + 1, Down := 0,
              Delay := (3 * ((1 : Nat) : ℚ) + 5) / ((1 + 1 : Nat) : ℚ) }
          else { Up := 1, Down := 0 + 1, Delay := 3 })) ∧
      (∀ k, k ≠ 1 →
        mapGet ss'.serviceStatusToday k = mapGet exampleTwo.serviceStatusToday k ∧
        mapGet ss'.latestDate k = mapGet exampleTwo.latestDate k) :=
  day_rollover exampleLib exampleTwo (exampleReport true 5 "").1
    { nowDate := "05-Nov-26", now := { nanos := 901 * dayNanos, zoneOffset := 0 } }
    exampleMonitor { Up := 1, Down := 0, Delay := 3 } rfl (by decide) rfl (by decide)

/-- C18 (current counters ignore the day boundary): for a report for a known
monitor, processed with any two clock readings (one whose day tag equals
`latestDate[id]` and one whose tag differs, say), the window, the window index, the
current counters and the bucketed state afterwards are the same; and the counters
are the numbers of successful and of failed filled slots of the window. -/
theorem counters_ignore_day (T : TimeLib) (ss : ServiceSentinel) (r : ReportData)
    (c₁ c₂ : Tick) (mon : Monitor) (today : TodayStatsOfMonitor)
    (hm : mapGet ss.monitors r.Data.Id = some mon) (hid : mon.ID ≠ 0)
    (ht : mapGet ss.serviceStatusToday r.Data.Id = some today)
    (hi : indexOf ss r.Data.Id < (windowOf ss r.Data.Id).length) :
    ∃ ss₁ out₁ ss₂ out₂,
      workerStep T ss r c₁ = some (ss₁, out₁) ∧ workerStep T ss r c₂ = some (ss₂, out₂) ∧
      ss₁.serviceCurrentStatusData = ss₂.serviceCurrentStatusData ∧
      ss₁.serviceCurrentStatusIndex = ss₂.serviceCurrentStatusIndex ∧
      ss₁.serviceResponseDataStoreCurrentUp = ss₂.serviceResponseDataStoreCurrentUp ∧
      ss₁.serviceResponseDataStoreCurrentDown = ss₂.serviceResponseDataStoreCurrentDown ∧
      bucketedState ss₁ r.Data.Id = bucketedState ss₂ r.Data.Id ∧
      out₁.batch = out₂.batch ∧
      currentUpOf ss₁ r.Data.Id = successfulSlots (windowOf ss₁ r.Data.Id) ∧
      currentDownOf ss₁ r.Data.Id = failedSlots (windowOf ss₁ r.Data.Id) := by
  obtain ⟨ss₁, out₁, hstep₁, _, _, _, hdata₁, hindex₁, hup₁, hdown₁, _, hbatch₁, _⟩ :=
    workerStep_known T ss r c₁ mon today hm hid ht hi
  obtain ⟨ss₂, out₂, hstep₂, _, _, _, hdata₂, hindex₂, hup₂, hdown₂, _, hbatch₂, _⟩ :=
    workerStep_known T ss r c₂ mon today hm hid ht hi
  refine ⟨ss₁, out₁, ss₂, out₂, hstep₁, hstep₂, by rw [hdata₁, hdata₂], by rw [hindex₁, hindex₂],
    by rw [hup₁, hup₂], by rw [hdown₁, hdown₂], ?_, by rw [hbatch₁, hbatch₂], ?_, ?_⟩
  · simp only [bucketedState, currentUpOf, currentDownOf, hup₁, hup₂, hdown₁, hdown₂]
  · simp only [currentUpOf, windowOf, hup₁, hdata₁, mapGet_mapSet_self, Option.getD_some,
      recount_counts]
  · simp only [currentDownOf, windowOf, hdown₁, hdata₁, mapGet_mapSet_self, Option.getD_some,
      recount_counts]

/-- Witness of C18: a report for monitor 1 read on the day of `latestDate[1]` and
read on the next day. -/
theorem counters_ignore_day_witness :
    ∃ ss₁ out₁ ss₂ out₂,
      workerStep exampleLib exampleBusy (exampleReport false 0 "x").1
        { nowDate := "04-Nov-26", now := { nanos := 900 * dayNanos, zoneOffset := 0 } }
        = some (ss₁, out₁) ∧
      workerStep exampleLib exampleBusy (exampleReport false 0 "x").1
        { nowDate := "05-Nov-26", now := { nanos := 901 * dayNanos, zoneOffset := 0 } }
        = some (ss₂, out₂) ∧
      ss₁.serviceCurrentStatusData = ss₂.serviceCurrentStatusData ∧
      ss₁.serviceCurrentStatusIndex = ss₂.serviceCurrentStatusIndex ∧
      ss₁.serviceResponseDataStoreCurrentUp = ss₂.serviceResponseDataStoreCurrentUp ∧
      ss₁.serviceResponseDataStoreCurrentDown = ss₂.serviceResponseDataStoreCurrentDown ∧
      bucketedState ss₁ 1 = bucketedState ss₂ 1 ∧
      out₁.batch = out₂.batch ∧
      currentUpOf ss₁ 1 = successfulSlots (windowOf ss₁ 1) ∧
      currentDownOf ss₁ 1 = failedSlots (windowOf ss₁ 1) :=
  counters_ignore_day exampleLib exampleBusy (exampleReport false 0 "x").1
    { nowDate := "04-Nov-26", now := { nanos := 900 * dayNanos, zoneOffset := 0 } }
    { nowDate := "05-Nov-26", now := { nanos := 901 * dayNanos, zoneOffset := 0 } }
    exampleMonitor { Up := 1, Down := 0, Delay := 3 } rfl (by decide) rfl (by decide)

/-- The loop body of `OnMonitorUpdate` on the catalog. -/
theorem allocMonitor_monitors (s : ServiceSentinel) (m : Monitor) (k : Nat) :
    mapGet (allocMonitor s m).monitors k
      = if m.ID = k then some m else mapGet s.monitors k := by
  by_cases h : m.ID = k
  · subst h; simp [allocMonitor, mapGet_mapSet_self]
  · have h' : k ≠ m.ID := fun e => h e.symm
    simp [allocMonitor, mapGet_mapSet_ne _ _ _ _ h', h]

/-- The loop body of `OnMonitorUpdate` on the windows: an absent or empty window of
the monitor is replaced by 30 empty slots, every other window is kept. -/
theorem allocMonitor_data (s : ServiceSentinel) (m : Monitor) (k : Nat) :
    mapGet (allocMonitor s m).serviceCurrentStatusData k
      = if m.ID = k ∧ (windowOf s k).length = 0 then
          some (List.replicate CurrentStatusSize MonitorHistory.zero)
        else mapGet s.serviceCurrentStatusData k := by
  by_cases h : m.ID = k
  · subst h
    by_cases hl : (windowOf s m.ID).length = 0
    · have hl' : ((mapGet s.serviceCurrentStatusData m.ID).getD []).length = 0 := hl
      simp [allocMonitor, hl, hl', mapGet_mapSet_self]
    · have hl' : ¬ ((mapGet s.serviceCurrentStatusData m.ID).getD []).length = 0 := hl
      simp only [allocMonitor, hl, hl', if_false, and_false]
  · have h' : k ≠ m.ID := fun e => h e.symm
    simp only [allocMonitor, h, false_and, if_false]
    split_ifs
    · exact mapGet_mapSet_ne _ _ _ _ h'
    · rfl

/-- The loop body of `OnMonitorUpdate` on the today-stats: a missing record of the
monitor is replaced by the zero record, every other record is kept. -/
theorem allocMonitor_today (s : ServiceSentinel) (m : Monitor) (k : Nat) :
    mapGet (allocMonitor s m).serviceStatusToday k
      = if m.ID = k ∧ mapGet s.serviceStatusToday k = none then
          some { Up := 0, Down := 0, Delay := 0 }
        else mapGet s.serviceStatusToday k := by
  by_cases h : m.ID = k
  · subst h
    by_cases hl : mapGet s.serviceStatusToday m.ID = none
    · simp [allocMonitor, hl, mapGet_mapSet_self]
    · simp only [allocMonitor, hl, if_false, and_false]
  · have h' : k ≠ m.ID := fun e => h e.symm
    simp only [allocMonitor, h, false_and, if_false]
    split_ifs
    · exact mapGet_mapSet_ne _ _ _ _ h'
    · rfl

/-- The loop of `OnMonitorUpdate` leaves the index, the counters, `lastStatus`,
`latestDate` and the SSL cache as they were. -/
theorem foldl_allocMonitor_frame (l : List Monitor) (s : ServiceSentinel) :
    (l.foldl allocMonitor s).serviceCurrentStatusIndex = s.serviceCurrentStatusIndex ∧
    (l.foldl allocMonitor s).latestDate = s.latestDate ∧
    (l.foldl allocMonitor s).lastStatus = s.lastStatus ∧
    (l.foldl allocMonitor s).serviceResponseDataStoreCurrentUp
      = s.serviceResponseDataStoreCurrentUp ∧
    (l.foldl allocMonitor s).serviceResponseDataStoreCurrentDown
      = s.serviceResponseDataStoreCurrentDown ∧
    (l.foldl allocMonitor s).sslCertCache = s.sslCertCache := by
  induction l generalizing s with
  | nil => simp
  | cons m rest ih =>
    rw [List.foldl_cons]
    obtain ⟨h1, h2, h3, h4, h5, h6⟩ := ih (allocMonitor s m)
    exact ⟨h1, h2, h3, h4, h5, h6⟩

/-- The catalog after the loop of `OnMonitorUpdate`: the last monitor of the list
with the id, and the previous entry for an id not in the list. -/
theorem foldl_allocMonitor_monitors (l : List Monitor) (s : ServiceSentinel) (k : Nat) :
    (k ∉ l.map (fun m => m.ID) →
      mapGet (l.foldl allocMonitor s).monitors k = mapGet s.monitors k) ∧
    (k ∈ l.map (fun m => m.ID) →
      ∃ m, m ∈ l ∧ m.ID = k ∧ mapGet (l.foldl allocMonitor s).monitors k = some m) ∧
    ((l.map (fun m => m.ID)).Nodup → ∀ m, m ∈ l → m.ID = k →
      mapGet (l.foldl allocMonitor s).monitors k = some m) := by
  induction l using List.reverseRecOn with
  | nil => simp
  | append_singleton l m ih =>
    obtain ⟨ih1, ih2, ih3⟩ := ih
    rw [List.foldl_append, List.foldl_cons, List.foldl_nil, allocMonitor_monitors]
    refine ⟨?_, ?_, ?_⟩
    · intro hk
      simp only [List.map_append, List.map_cons, List.map_nil, List.mem_append,
        List.mem_singleton, not_or] at hk
      rw [if_neg (fun e => hk.2 e.symm)]
      exact ih1 hk.1
    · intro hk
      by_cases hmk : m.ID = k
      · exact ⟨m, by simp, hmk, by rw [if_pos hmk]⟩
      · simp only [List.map_append, List.map_cons, List.map_nil, List.mem_append,
          List.mem_singleton] at hk
        rcases hk with hk | hk
        · obtain ⟨m', hm', hid', hget⟩ := ih2 hk
          exact ⟨m', by simp [hm'], hid', by rw [if_neg hmk]; exact hget⟩
        · exact absurd hk.symm hmk
    · intro hnd m' hm' hid'
      simp only [List.map_append, List.map_cons, List.map_nil] at hnd
      rw [List.nodup_append] at hnd
      obtain ⟨hnd1, _, hdis⟩ := hnd
      simp only [List.mem_append, List.mem_singleton] at hm'
      rcases hm' with hm' | hm'
      · have hne : ¬ m.ID = k := by
          intro e
          have h1 : k ∈ l.map (fun m => m.ID) := List.mem_map.mpr ⟨m', hm', hid'⟩
          exact hdis h1 (by simp [e])
        rw [if_neg hne]
        exact ih3 hnd1 m' hm' hid'
      · subst hm'
        rw [if_pos hid']

/-- The windows after the loop of `OnMonitorUpdate`. -/
theorem foldl_allocMonitor_data (l : List Monitor) (s : ServiceSentinel) (k : Nat) :
    ((windowOf s k).length ≠ 0 →
      mapGet (l.foldl allocMonitor s).serviceCurrentStatusData k
        = mapGet s.serviceCurrentStatusData k) ∧
    (k ∉ l.map (fun m => m.ID) →
      mapGet (l.foldl allocMonitor s).serviceCurrentStatusData k
        = mapGet s.serviceCurrentStatusData k) ∧
    ((windowOf s k).length = 0 → k ∈ l.map (fun m => m.ID) →
      mapGet (l.foldl allocMonitor s).serviceCurrentStatusData k
        = some (List.replicate CurrentStatusSize MonitorHistory.zero)) := by
  induction l generalizing s with
  | nil => simp
  | cons m rest ih =>
    rw [List.foldl_cons]
    obtain ⟨ih1, ih2, ih3⟩ := ih (allocMonitor s m)
    have hstep := allocMonitor_data s m k
    refine ⟨?_, ?_, ?_⟩
    · intro hne
      rw [if_neg (fun h => hne h.2)] at hstep
      rw [ih1 (by rw [windowOf, hstep]; exact hne), hstep]
    · intro hk
      simp only [List.map_cons, List.mem_cons, not_or] at hk
      rw [if_neg (fun h => hk.1 h.1.symm)] at hstep
      rw [ih2 hk.2, hstep]
    · intro h0 hk
      by_cases hmk : m.ID = k
      · rw [if_pos ⟨hmk, h0⟩] at hstep
        rw [ih1 (by rw [windowOf, hstep]; simp [CurrentStatusSize]), hstep]
      · rw [if_neg (fun h => hmk h.1)] at hstep
        simp only [List.map_cons, List.mem_cons] at hk
        rcases hk with hk | hk
        · exact absurd hk.symm hmk
        · exact ih3 (by rw [windowOf, hstep]; exact h0) hk

/-- The today-stats after the loop of `OnMonitorUpdate`. -/
theorem foldl_allocMonitor_today (l : List Monitor) (s : ServiceSentinel) (k : Nat) :
    (mapGet s.serviceStatusToday k ≠ none →
      mapGet (l.foldl allocMonitor s).serviceStatusToday k = mapGet s.serviceStatusToday k) ∧
    (k ∉ l.map (fun m => m.ID) →
      mapGet (l.foldl allocMonitor s).serviceStatusToday k = mapGet s.serviceStatusToday k) ∧
    (mapGet s.serviceStatusToday k = none → k ∈ l.map (fun m => m.ID) →
      mapGet (l.foldl allocMonitor s).serviceStatusToday k
        = some { Up := 0, Down := 0, Delay := 0 }) := by
  induction l generalizing s with
  | nil => simp
  | cons m rest ih =>
    rw [List.foldl_cons]
    obtain ⟨ih1, ih2, ih3⟩ := ih (allocMonitor s m)
    have hstep := allocMonitor_today s m k
    refine ⟨?_, ?_, ?_⟩
    · intro hne
      rw [if_neg (fun h => hne h.2)] at hstep
      rw [ih1 (by rw [hstep]; exact hne), hstep]
    · intro hk
      simp only [List.map_cons, List.mem_cons, not_or] at hk
      rw [if_neg (fun h => hk.1 h.1.symm)] at hstep
      rw [ih2 hk.2, hstep]
    · intro h0 hk
      by_cases hmk : m.ID = k
      · rw [if_pos ⟨hmk, h0⟩] at hstep
        rw [ih1 (by rw [hstep]; simp), hstep]
      · rw [if_neg (fun h => hmk h.1)] at hstep
        simp only [List.map_cons, List.mem_cons] at hk
        rcases hk with hk | hk
        · exact absurd hk.symm hmk
        · exact ih3 (by rw [hstep]; exact h0) hk

/-- C15 (OnMonitorUpdate), as amended: for a Sentinel state whose windows are absent
or hold 30 slots and a list `C` of monitors read from the store, after
`OnMonitorUpdate` the catalog holds exactly the ids of `C`, each with a monitor of `C`
of that id (the monitor itself when the ids of `C` are distinct); every id of `C` has
a window of 30 slots and a today-stats record; an id of `C` that had no window gets 30
empty slots and one that had no today-stats record gets the zero record; a window or
today-stats record that existed is unchanged, whether or not its id was in the
catalog before; and the window index, `latestDate`, `lastStatus`, the counters and
the SSL cache are unchanged for every id. -/
theorem on_monitor_update (ss : ServiceSentinel) (C : List Monitor)
    (hw : ∀ k, (windowOf ss k).length = 0 ∨ (windowOf ss k).length = 30) :
    (∀ k, (∃ m, mapGet (OnMonitorUpdate ss C).monitors k = some m)
        ↔ k ∈ C.map (fun m => m.ID)) ∧
    (∀ k m, mapGet (OnMonitorUpdate ss C).monitors k = some m → m ∈ C ∧ m.ID = k) ∧
    ((C.map (fun m => m.ID)).Nodup →
      ∀ m, m ∈ C → mapGet (OnMonitorUpdate ss C).monitors m.ID = some m) ∧
    (∀ m, m ∈ C →
      (windowOf (OnMonitorUpdate ss C) m.ID).length = 30 ∧
      ∃ t, mapGet (OnMonitorUpdate ss C).serviceStatusToday m.ID = some t) ∧
    (∀ m, m ∈ C → (windowOf ss m.ID).length = 0 →
      windowOf (OnMonitorUpdate ss C) m.ID = List.replicate 30 MonitorHistory.zero) ∧
    (∀ m, m ∈ C → mapGet ss.serviceStatusToday m.ID = none →
      mapGet (OnMonitorUpdate ss C).serviceStatusToday m.ID
        = some { Up := 0, Down := 0, Delay := 0 }) ∧
    (∀ k, (windowOf ss k).length ≠ 0 →
      mapGet (OnMonitorUpdate ss C).serviceCurrentStatusData k
        = mapGet ss.serviceCurrentStatusData k) ∧
    (∀ k, mapGet ss.serviceStatusToday k ≠ none →
      mapGet (OnMonitorUpdate ss C).serviceStatusToday k = mapGet ss.serviceStatusToday k) ∧
    (OnMonitorUpdate ss C).serviceCurrentStatusIndex = ss.serviceCurrentStatusIndex ∧
    (OnMonitorUpdate ss C).latestDate = ss.latestDate ∧
    (OnMonitorUpdate ss C).lastStatus = ss.lastStatus ∧
    (OnMonitorUpdate ss C).serviceResponseDataStoreCurrentUp
      = ss.serviceResponseDataStoreCurrentUp ∧
    (OnMonitorUpdate ss C).serviceResponseDataStoreCurrentDown
      = ss.serviceResponseDataStoreCurrentDown ∧
    (OnMonitorUpdate ss C).sslCertCache = ss.sslCertCache := by
  have hmon := fun k => foldl_allocMonitor_monitors C { ss with monitors := [] } k
  have hdata := fun k => foldl_allocMonitor_data C { ss with monitors := [] } k
  have htoday := fun k => foldl_allocMonitor_today C { ss with monitors := [] } k
  obtain ⟨f1, f2, f3, f4, f5, f6⟩ := foldl_allocMonitor_frame C { ss with monitors := [] }
  have hmem : ∀ m : Monitor, m ∈ C → m.ID ∈ C.map (fun m => m.ID) :=
    fun m hm => List.mem_map.mpr ⟨m, hm, rfl⟩
  refine ⟨?_, ?_, ?_, ?_, ?_, ?_, ?_, ?_, f1, f2, f3, f4, f5, f6⟩
  · intro k
    constructor
    · rintro ⟨m, hget⟩
      by_contra hk
      have := (hmon k).1 hk
      rw [OnMonitorUpdate, this] at hget
      simp [mapGet] at hget
    · intro hk
      obtain ⟨m, _, _, hget⟩ := (hmon k).2.1 hk
      exact ⟨m, hget⟩
  · intro k m hget
    by_cases hk : k ∈ C.map (fun m => m.ID)
    · obtain ⟨m', hm', hid', hget'⟩ := (hmon k).2.1 hk
      rw [OnMonitorUpdate, hget'] at hget
      cases hget
      exact ⟨hm', hid'⟩
    · have := (hmon k).1 hk
      rw [OnMonitorUpdate, this] at hget
      simp [mapGet] at hget
  · intro hnd m hm
    exact (hmon m.ID).2.2 hnd m hm rfl
  · intro m hm
    refine ⟨?_, ?_⟩
    · rcases hw m.ID with h0 | h30
      · rw [windowOf, OnMonitorUpdate, (hdata m.ID).2.2 h0 (hmem m hm)]
        simp [CurrentStatusSize]
      · have hne : (windowOf ss m.ID).length ≠ 0 := by rw [h30]; decide
        rw [windowOf, OnMonitorUpdate, (hdata m.ID).1 hne]
        exact h30
    · cases ht : mapGet ss.serviceStatusToday m.ID with
      | none => exact ⟨_, (htoday m.ID).2.2 ht (hmem m hm)⟩
      | some t =>
        refine ⟨t, ?_⟩
        rw [OnMonitorUpdate, (htoday m.ID).1 (by rw [ht]; simp)]
        exact ht
  · intro m hm h0
    rw [windowOf, OnMonitorUpdate, (hdata m.ID).2.2 h0 (hmem m hm)]
    rfl
  · intro m hm h0
    exact (htoday m.ID).2.2 h0 (hmem m hm)
  · intro k hne
    exact (hdata k).1 hne
  · intro k hne
    exact (htoday k).1 hne

/-- Witness of C15: monitor 1 has state, monitor 2 is new. -/
theorem on_monitor_update_witness :
    (∀ k, (∃ m, mapGet (OnMonitorUpdate exampleBusy exampleCatalog).monitors k = some m)
        ↔ k ∈ exampleCatalog.map (fun m => m.ID)) ∧
    (∀ k m, mapGet (OnMonitorUpdate exampleBusy exampleCatalog).monitors k = some m → m ∈ exampleCatalog ∧ m.ID = k) ∧
    ((exampleCatalog.map (fun m => m.ID)).Nodup →
      ∀ m, m ∈ exampleCatalog → mapGet (OnMonitorUpdate exampleBusy exampleCatalog).monitors m.ID = some m) ∧
    (∀ m, m ∈ exampleCatalog →
      (windowOf (OnMonitorUpdate exampleBusy exampleCatalog) m.ID).length = 30 ∧
      ∃ t, mapGet (OnMonitorUpdate exampleBusy exampleCatalog).serviceStatusToday m.ID = some t) ∧
    (∀ m, m ∈ exampleCatalog → (windowOf exampleBusy m.ID).length = 0 →
      windowOf (OnMonitorUpdate exampleBusy exampleCatalog) m.ID = List.replicate 30 MonitorHistory.zero) ∧
    (∀ m, m ∈ exampleCatalog → mapGet exampleBusy.serviceStatusToday m.ID = none →
      mapGet (OnMonitorUpdate exampleBusy exampleCatalog).serviceStatusToday m.ID
        = some { Up := 0, Down := 0, Delay := 0 }) ∧
    (∀ k, (windowOf exampleBusy k).length ≠ 0 →
      mapGet (OnMonitorUpdate exampleBusy exampleCatalog).serviceCurrentStatusData k
        = mapGet exampleBusy.serviceCurrentStatusData k) ∧
    (∀ k, mapGet exampleBusy.serviceStatusToday k ≠ none →
      mapGet (OnMonitorUpdate exampleBusy exampleCatalog).serviceStatusToday k = mapGet exampleBusy.serviceStatusToday k) ∧
    (OnMonitorUpdate exampleBusy exampleCatalog).serviceCurrentStatusIndex = exampleBusy.serviceCurrentStatusIndex ∧
    (OnMonitorUpdate exampleBusy exampleCatalog).latestDate = exampleBusy.latestDate ∧
    (OnMonitorUpdate exampleBusy exampleCatalog).lastStatus = exampleBusy.lastStatus ∧
    (OnMonitorUpdate exampleBusy exampleCatalog).serviceResponseDataStoreCurrentUp
      = exampleBusy.serviceResponseDataStoreCurrentUp ∧
    (OnMonitorUpdate exampleBusy exampleCatalog).serviceResponseDataStoreCurrentDown
      = exampleBusy.serviceResponseDataStoreCurrentDown ∧
    (OnMonitorUpdate exampleBusy exampleCatalog).sslCertCache = exampleBusy.sslCertCache :=
  on_monitor_update exampleBusy exampleCatalog (by
    intro k
    by_cases h : 1 = k
    · right; subst h; rfl
    · left; simp [windowOf, exampleBusy, mapGet, h])

/-- C15, as stated, fails on the code.  Monitor 1 has a record in its window and
today-stats `{1, 0, 3}`.  First case: an update reads a store without monitor 1, so
the id leaves the catalog, and the next update reads it again; the id is newly
present in the catalog, yet its window still holds the old record and its
today-stats are still `{1, 0, 3}`.  Second case: monitor 1 is deleted and the next
update reads it again; the window is new, yet the today-stats are still
`{1, 0, 3}`. -/
theorem on_monitor_update_newly_present_keeps_state :
    (mapGet (OnMonitorUpdate exampleBusy []).monitors 1 = none ∧
      mapGet (OnMonitorUpdate (OnMonitorUpdate exampleBusy []) [exampleMonitor]).monitors 1
        = some exampleMonitor ∧
      windowOf (OnMonitorUpdate (OnMonitorUpdate exampleBusy []) [exampleMonitor]) 1
        = windowOf exampleBusy 1 ∧
      windowOf (OnMonitorUpdate (OnMonitorUpdate exampleBusy []) [exampleMonitor]) 1
        ≠ List.replicate 30 MonitorHistory.zero ∧
      mapGet (OnMonitorUpdate (OnMonitorUpdate exampleBusy []) [exampleMonitor]).serviceStatusToday
        1 = some { Up := 1, Down := 0, Delay := 3 } ∧
      mapGet (OnMonitorUpdate (OnMonitorUpdate exampleBusy []) [exampleMonitor]).serviceStatusToday
        1 ≠ some { Up := 0, Down := 0, Delay := 0 }) ∧
    (mapGet (OnMonitorDelete exampleBusy none 1).1.monitors 1 = none ∧
      mapGet (OnMonitorUpdate (OnMonitorDelete exampleBusy none 1).1 [exampleMonitor]).monitors 1
        = some exampleMonitor ∧
      windowOf (OnMonitorUpdate (OnMonitorDelete exampleBusy none 1).1 [exampleMonitor]) 1
        = List.replicate 30 MonitorHistory.zero ∧
      mapGet
        (OnMonitorUpdate (OnMonitorDelete exampleBusy none 1).1 [exampleMonitor]).serviceStatusToday
        1 = some { Up := 1, Down := 0, Delay := 3 } ∧
      mapGet
        (OnMonitorUpdate (OnMonitorDelete exampleBusy none 1).1 [exampleMonitor]).serviceStatusToday
        1 ≠ some { Up := 0, Down := 0, Delay := 0 }) := by
  refine ⟨⟨rfl, rfl, rfl, by decide, rfl, ?_⟩, ⟨rfl, rfl, rfl, rfl, ?_⟩⟩
  · intro h
    have h' := congrArg (fun o => o.map (fun t => t.Up)) h
    revert h'
    decide
  · intro h
    have h' := congrArg (fun o => o.map (fun t => t.Up)) h
    revert h'
    decide

/-- A key that is read is a key of the list. -/
theorem mem_keys_of_mapGet {V : Type} (m : GoMap V) (k : Nat) (v : V)
    (h : mapGet m k = some v) : k ∈ m.map Prod.fst := by
  induction m with
  | nil => simp [mapGet] at h
  | cons p rest ih =>
    obtain ⟨k', v'⟩ := p
    by_cases hk : k' = k
    · simp [hk]
    · simp only [mapGet, hk, if_false] at h
      simp [ih h]

/-- A key of the list can be read. -/
theorem mapGet_of_mem_keys {V : Type} (m : GoMap V) (k : Nat)
    (h : k ∈ m.map Prod.fst) : ∃ v, mapGet m k = some v := by
  induction m with
  | nil => simp at h
  | cons p rest ih =>
    obtain ⟨k', v'⟩ := p
    by_cases hk : k' = k
    · exact ⟨v', by simp [mapGet, hk]⟩
    · simp only [List.map_cons, List.mem_cons] at h
      rcases h with h | h
      · exact absurd h.symm hk
      · obtain ⟨v, hv⟩ := ih h
        exact ⟨v, by simp [mapGet, hk, hv]⟩

/-- The values of a map are what can be read from it. -/
theorem mem_mapValues {V : Type} (m : GoMap V) (v : V) :
    v ∈ mapValues m ↔ ∃ k, mapGet m k = some v := by
  unfold mapValues mapKeys
  rw [List.mem_filterMap]
  constructor
  · rintro ⟨k, _, hk⟩
    exact ⟨k, hk⟩
  · rintro ⟨k, hk⟩
    exact ⟨k, List.mem_dedup.mpr (mem_keys_of_mapGet m k v hk), hk⟩

/-- In a catalog keyed by id the monitors have distinct ids. -/
theorem mapValues_ids_nodup (ss : ServiceSentinel) (hkey : CatalogKeyed ss) :
    (mapValues ss.monitors).Nodup ∧ ((mapValues ss.monitors).map (fun m => m.ID)).Nodup := by
  have hnd : (mapValues ss.monitors).Nodup := by
    unfold mapValues mapKeys
    refine List.Nodup.filterMap ?_ (List.nodup_dedup _)
    intro a a' b hb hb'
    rw [Option.mem_def] at hb hb'
    rw [← hkey a b hb, ← hkey a' b hb']
  refine ⟨hnd, ?_⟩
  refine List.Nodup.map_on ?_ hnd
  intro x hx y hy hxy
  obtain ⟨kx, hkx⟩ := (mem_mapValues _ _).mp hx
  obtain ⟨ky, hky⟩ := (mem_mapValues _ _).mp hy
  have h1 := hkey kx x hkx
  have h2 := hkey ky y hky
  have : kx = ky := by rw [← h1, ← h2]; exact hxy
  subst this
  rw [hkx] at hky
  exact Option.some.inj hky

/-- C13 (Monitors snapshot): for a catalog keyed by monitor id and any order in
which `range` yields its entries, `Monitors()` returns a list that holds exactly the
monitors of the catalog, each once, sorted in strictly ascending order of id; the
result does not depend on the order of `range`. -/
theorem monitors_snapshot (ss : ServiceSentinel) (rangeOrder : List Monitor → List Monitor)
    (hperm : ∀ l, (rangeOrder l).Perm l) (hkey : CatalogKeyed ss) :
    (∀ m, m ∈ Monitors ss rangeOrder ↔ ∃ k, mapGet ss.monitors k = some m) ∧
    (Monitors ss rangeOrder).Nodup ∧
    ((Monitors ss rangeOrder).map (fun m => m.ID)).Sorted (fun a b => a < b) ∧
    Monitors ss rangeOrder = Monitors ss (fun l => l) := by
  haveI : IsTotal Monitor (fun a b => a.ID ≤ b.ID) := ⟨fun a b => Nat.le_total a.ID b.ID⟩
  haveI : IsTrans Monitor (fun a b => a.ID ≤ b.ID) := ⟨fun _ _ _ h₁ h₂ => Nat.le_trans h₁ h₂⟩
  haveI : IsAntisymm Monitor (fun a b => a.ID < b.ID) :=
    ⟨fun _ _ h₁ h₂ => absurd h₁ (Nat.lt_asymm h₂)⟩
  obtain ⟨hnd, hndid⟩ := mapValues_ids_nodup ss hkey
  have strict : ∀ σ : List Monitor → List Monitor, (∀ l, (σ l).Perm l) →
      (Monitors ss σ).Perm (mapValues ss.monitors) ∧
      ((Monitors ss σ).map (fun m => m.ID)).Sorted (fun a b => a < b) := by
    intro σ hσ
    have hp : (Monitors ss σ).Perm (mapValues ss.monitors) :=
      (List.perm_insertionSort _ _).trans (hσ _)
    refine ⟨hp, ?_⟩
    have hs : (Monitors ss σ).Sorted (fun a b => a.ID ≤ b.ID) := List.sorted_insertionSort _ _
    have hs' : ((Monitors ss σ).map (fun m => m.ID)).Sorted (fun a b => a ≤ b) :=
      List.pairwise_map.mpr hs
    exact hs'.lt_of_le ((hp.map _).nodup_iff.mpr hndid)
  obtain ⟨hp, hsorted⟩ := strict rangeOrder hperm
  obtain ⟨hp', hsorted'⟩ := strict (fun l => l) (fun l => List.Perm.refl l)
  refine ⟨?_, hp.nodup_iff.mpr hnd, hsorted, ?_⟩
  · intro m
    rw [hp.mem_iff, mem_mapValues]
  · exact List.eq_of_perm_of_sorted (hp.trans hp'.symm) (List.pairwise_map.mp hsorted)
      (List.pairwise_map.mp hsorted')

/-- The catalog of `exampleTwo` is keyed by id. -/
theorem exampleTwo_keyed : CatalogKeyed exampleTwo := by
  intro k m h
  by_cases h1 : 1 = k
  · subst h1
    simp only [exampleTwo, mapGet, if_true, Option.some.injEq] at h
    subst h; rfl
  · by_cases h2 : 2 = k
    · subst h2
      simp only [exampleTwo, mapGet, h1, if_false, if_true, Option.some.injEq] at h
      subst h; rfl
    · simp [exampleTwo, mapGet, h1, h2] at h

/-- Witness of C13: the catalog of two monitors, with `range` yielding them in
reverse. -/
theorem monitors_snapshot_witness :
    (∀ m, m ∈ Monitors exampleTwo List.reverse ↔ ∃ k, mapGet exampleTwo.monitors k = some m) ∧
    (Monitors exampleTwo List.reverse).Nodup ∧
    ((Monitors exampleTwo List.reverse).map (fun m => m.ID)).Sorted (fun a b => a < b) ∧
    Monitors exampleTwo List.reverse = Monitors exampleTwo (fun l => l) :=
  monitors_snapshot exampleTwo List.reverse (fun l => List.reverse_perm l) exampleTwo_keyed

/-- Away from the lower end of the selected range the day index is within `[0, 28]`. -/
theorem dayIndex_range (today createdAt : Int)
    (h₁ : today - 29 * dayNanos < createdAt) (h₂ : createdAt < today) :
    0 ≤ dayIndex today createdAt ∧ dayIndex today createdAt ≤ 28 := by
  unfold dayIndex
  unfold dayNanos at h₁
  have hd : 0 ≤ today - createdAt := by omega
  rw [Int.tdiv_eq_ediv hd (by decide), Int.tdiv_eq_ediv (Int.ediv_nonneg hd (by decide)) (by decide)]
  unfold hourNanos
  omega

/-- C16, evaluated on the code: the only history row was created exactly 29 days
before local midnight; the query selects it, its day index is `28 - 696 / 24 = -1`,
and `LoadStats` panics on the write to `Delay[-1]`. -/
theorem dayIndex_below_range :
    selectHistories exampleStoreOld (900 * dayNanos) = exampleStoreOld.histories ∧
    dayIndex (900 * dayNanos) (871 * dayNanos) = -1 ∧
    LoadStats exampleFresh none exampleStoreOld (900 * dayNanos) = none := by
  refine ⟨by decide, by decide, by decide⟩

/-- C20, evaluated on the code: monitor 1 has one successful report today and no
history.  The first `LoadStats` (cache miss) returns `TotalUp = 1`; the second, with
the cache entry the first call left and nothing processed in between, returns
`TotalUp = 2`, while `Up[0..29]` still sums to 1. -/
theorem loadStats_counts_today_again :
    ∃ r₁ c₁ r₂ c₂ i₁ i₂,
      LoadStats exampleBusy none exampleStore (900 * dayNanos) = some (r₁, c₁) ∧
      LoadStats exampleBusy c₁ exampleStore (900 * dayNanos) = some (r₂, c₂) ∧
      mapGet r₁ 1 = some i₁ ∧ mapGet r₂ 1 = some i₂ ∧
      i₁.TotalUp = 1 ∧ i₁.Up.sum = 1 ∧
      i₂.TotalUp = 2 ∧ i₂.Up.sum = 1 ∧ i₂.Up = i₁.Up :=
  ⟨_, _, _, _, _, _, rfl, rfl, rfl, rfl, by decide, by decide, by decide, by decide, by decide⟩

/-- A string that begins with a non-empty string is not empty. -/
theorem append_ne_empty_left (a b : String) (ha : a ≠ "") : a ++ b ≠ "" := by
  intro h
  apply ha
  have hd := congrArg String.data h
  rw [String.data_append] at hd
  exact String.ext (List.append_eq_nil.mp hd).1

/-- The HTTP probe does not fail without data. -/
theorem doHTTPGET_explained (result : TaskResult) (o : HTTPOutcome)
    (herr : ∀ e, o.getErr = some e → e ≠ "") :
    ¬ ((doHTTPGET result o).Successful = false ∧ (doHTTPGET result o).Data = "") := by
  unfold doHTTPGET
  rintro ⟨hs, hd⟩
  cases hg : o.getErr with
  | some e =>
    simp only [hg] at hd
    exact herr e hg hd
  | none =>
    simp only [hg] at hs hd
    by_cases hst : o.statusCode > 399 ∨ o.statusCode < 200
    · rw [if_pos hst] at hd
      exact append_ne_empty_left _ _ (by decide) hd
    · rw [if_neg hst] at hs hd
      cases hu : o.urlErr with
      | some e =>
        simp only [hu] at hd
        exact append_ne_empty_left _ _ (by decide) hd
      | none =>
        simp only [hu] at hs hd
        by_cases hsc : o.scheme = "https"
        · rw [if_pos hsc] at hs hd
          by_cases hc : o.certError ≠ ""
          · rw [if_pos hc] at hd
            exact append_ne_empty_left _ _ (by decide) hd
          · rw [if_neg hc] at hs
            exact Bool.noConfusion hs
        · rw [if_neg hsc] at hs
          exact Bool.noConfusion hs

/-- The ICMP probe does not fail without data, and a failed one has delay 0. -/
theorem doICMPPing_explained (result : TaskResult) (o : PingOutcome)
    (h₁ : ∀ e, o.newPingerErr = some e → e ≠ "") (h₂ : ∀ e, o.runErr = some e → e ≠ "") :
    ¬ ((doICMPPing result o).Successful = false ∧ (doICMPPing result o).Data = "") ∧
    ((doICMPPing result o).Successful = false → (doICMPPing result o).Delay = result.Delay) := by
  unfold doICMPPing
  cases hn : o.newPingerErr with
  | some e => exact ⟨fun h => h₁ e hn h.2, fun _ => rfl⟩
  | none =>
    cases hr : o.runErr with
    | some e => exact ⟨fun h => h₂ e hr h.2, fun _ => rfl⟩
    | none => exact ⟨fun h => Bool.noConfusion h.1, fun h => Bool.noConfusion h⟩

/-- The TCP probe does not fail without data, and a failed one has delay 0. -/
theorem doTCPPing_explained (result : TaskResult) (o : TCPOutcome)
    (h₁ : ∀ e, o.dialErr = some e → e ≠ "") :
    ¬ ((doTCPPing result o).Successful = false ∧ (doTCPPing result o).Data = "") ∧
    ((doTCPPing result o).Successful = false → (doTCPPing result o).Delay = result.Delay) := by
  unfold doTCPPing
  cases hn : o.dialErr with
  | some e => exact ⟨fun h => h₁ e hn h.2, fun _ => rfl⟩
  | none => exact ⟨fun h => Bool.noConfusion h.1, fun h => Bool.noConfusion h⟩

/-- The command probe does not fail without data. -/
theorem doCommand_explained (result : TaskResult) (o : CommandOutcome)
    (h₁ : ∀ e, o = CommandOutcome.groupFailed e → e ≠ "") :
    ¬ ((doCommand result o).Successful = false ∧ (doCommand result o).Data = "") := by
  cases o with
  | groupFailed e => exact fun h => h₁ e rfl h.2
  | exited output secs => exact fun h => Bool.noConfusion h.1
  | failed output e timedOut secs =>
    intro h
    have hne : output ++ "\n" ++ e ≠ "" :=
      append_ne_empty_left _ _ (append_ne_empty _ _ (by decide))
    exact append_ne_empty _ _ hne h.2

/-- C17 (a probe result is never an unexplained failure): with the I/O outcome of
each probe as an input and every error of a library call carrying a non-empty
message, for a task of one of the four probe kinds the `TaskResult` built by `doTask`
does not have both `successful = false` and `data = ""`; and when an ICMP or TCP
probe fails its delay is left at 0. -/
theorem probe_result_explained (K : TaskTypes) (task : Task) (io : ProbeIO)
    (hkind : task.Type' = K.HTTPGET ∨ task.Type' = K.ICMPPing ∨ task.Type' = K.TCPPing
      ∨ task.Type' = K.Command)
    (herr : ErrorsHaveMessage io) :
    ¬ ((doTask K task io).Successful = false ∧ (doTask K task io).Data = "") ∧
    (task.Type' ≠ K.HTTPGET → (task.Type' = K.ICMPPing ∨ task.Type' = K.TCPPing) →
      (doTask K task io).Successful = false → (doTask K task io).Delay = 0) := by
  obtain ⟨e₁, e₂, e₃, e₄, e₅⟩ := herr
  unfold doTask
  by_cases h1 : task.Type' = K.HTTPGET
  · simp only [h1, if_true]
    exact ⟨doHTTPGET_explained _ _ e₁, fun h => absurd rfl h⟩
  · by_cases h2 : task.Type' = K.ICMPPing
    · simp only [h1, h2, if_true, if_false]
      have := doICMPPing_explained
        { Id := task.Id, Type' := K.ICMPPing, Delay := 0, Data := "", Successful := false }
        io.ping e₂ e₃
      rw [h2] at h1
      simp only [h1, if_false]
      exact ⟨this.1, fun _ _ => this.2⟩
    · by_cases h3 : task.Type' = K.TCPPing
      · have := doTCPPing_explained
          { Id := task.Id, Type' := task.Type', Delay := 0, Data := "", Successful := false }
          io.tcp e₄
        simp only [h1, h2, h3, if_true, if_false]
        rw [h3] at h1 h2 this
        simp only [h1, h2, if_false]
        exact ⟨this.1, fun _ _ => this.2⟩
      · have h4 : task.Type' = K.Command := by
          rcases hkind with h | h | h | h
          · exact absurd h h1
          · exact absurd h h2
          · exact absurd h h3
          · exact h
        simp only [h1, h2, h3, h4, if_true, if_false]
        rw [h4] at h1 h2 h3
        simp only [h1, h2, h3, if_false]
        refine ⟨doCommand_explained _ _ e₅, ?_⟩
        intro _ hk
        rcases hk with h | h
        · exact h.elim
        · exact h.elim

/-- Witness of C17: a TCP ping of a closed port. -/
theorem probe_result_explained_witness :
    ¬ ((doTask exampleTypes { Id := 9, Type' := 3, Data := "127.0.0.1:1" } exampleIO).Successful
          = false ∧
        (doTask exampleTypes { Id := 9, Type' := 3, Data := "127.0.0.1:1" } exampleIO).Data
          = "") ∧
    ((3 : Nat) ≠ exampleTypes.HTTPGET →
      ((3 : Nat) = exampleTypes.ICMPPing ∨ (3 : Nat) = exampleTypes.TCPPing) →
      (doTask exampleTypes { Id := 9, Type' := 3, Data := "127.0.0.1:1" } exampleIO).Successful
        = false →
      (doTask exampleTypes { Id := 9, Type' := 3, Data := "127.0.0.1:1" } exampleIO).Delay = 0) :=
  probe_result_explained exampleTypes { Id := 9, Type' := 3, Data := "127.0.0.1:1" } exampleIO
    (Or.inr (Or.inr (Or.inl rfl)))
    ⟨fun _ h => (by cases h), fun _ h => (by cases h), fun _ h => (by cases h),
     fun _ h => (by cases h; decide), fun _ h => (by cases h)⟩

/-- `OnMonitorUpdate` establishes the invariant from the facts about windows, indexes
and counters. -/
theorem OnMonitorUpdate_inv (ss : ServiceSentinel) (C : List Monitor)
    (h₁ : ∀ k, (windowOf ss k).length = 0 ∨ (windowOf ss k).length = CurrentStatusSize)
    (h₂ : ∀ k, indexOf ss k < CurrentStatusSize)
    (h₃ : ∀ k, currentUpOf ss k + currentDownOf ss k ≤ CurrentStatusSize) :
    SentinelInv (OnMonitorUpdate ss C) := by
  have hmon := fun k => foldl_allocMonitor_monitors C { ss with monitors := [] } k
  have hdata := fun k => foldl_allocMonitor_data C { ss with monitors := [] } k
  have htoday := fun k => foldl_allocMonitor_today C { ss with monitors := [] } k
  obtain ⟨f1, _, _, f4, f5, _⟩ := foldl_allocMonitor_frame C { ss with monitors := [] }
  have hwin : ∀ k, (windowOf (OnMonitorUpdate ss C) k).length = 0 ∨
      (windowOf (OnMonitorUpdate ss C) k).length = CurrentStatusSize := by
    intro k
    by_cases h0 : (windowOf ss k).length = 0
    · by_cases hk : k ∈ C.map (fun m => m.ID)
      · right
        rw [windowOf, OnMonitorUpdate, (hdata k).2.2 h0 hk]
        simp
      · rw [windowOf, OnMonitorUpdate, (hdata k).2.1 hk]
        exact h₁ k
    · rw [windowOf, OnMonitorUpdate, (hdata k).1 h0]
      exact h₁ k
  have hcat : ∀ k m, mapGet (OnMonitorUpdate ss C).monitors k = some m →
      k ∈ C.map (fun m => m.ID) ∧ m.ID = k := by
    intro k m hget
    by_cases hk : k ∈ C.map (fun m => m.ID)
    · obtain ⟨m', _, hid', hget'⟩ := (hmon k).2.1 hk
      rw [OnMonitorUpdate, hget'] at hget
      cases hget
      exact ⟨hk, hid'⟩
    · have := (hmon k).1 hk
      rw [OnMonitorUpdate, this] at hget
      simp [mapGet] at hget
  refine ⟨hwin, ?_, ?_, ?_, fun k m h => (hcat k m h).2⟩
  · intro k
    rw [indexOf, OnMonitorUpdate, f1]
    exact h₂ k
  · intro k
    rw [currentUpOf, currentDownOf, OnMonitorUpdate, f4, f5]
    exact h₃ k
  · intro k m hget
    have hk := (hcat k m hget).1
    refine ⟨?_, ?_⟩
    · by_cases h0 : (windowOf ss k).length = 0
      · rw [windowOf, OnMonitorUpdate, (hdata k).2.2 h0 hk]
        simp
      · rw [windowOf, OnMonitorUpdate, (hdata k).1 h0]
        rcases h₁ k with h | h
        · exact absurd h h0
        · exact h
    · cases ht : mapGet ss.serviceStatusToday k with
      | none => exact ⟨_, (htoday k).2.2 ht hk⟩
      | some t =>
        refine ⟨t, ?_⟩
        rw [OnMonitorUpdate, (htoday k).1 (by rw [ht]; simp)]
        exact ht

/-- `OnMonitorDelete` keeps the invariant. -/
theorem OnMonitorDelete_inv (ss : ServiceSentinel) (cache : PageCache) (id : Nat)
    (h : SentinelInv ss) : SentinelInv (OnMonitorDelete ss cache id).1 := by
  obtain ⟨h₁, h₂, h₃, h₄, h₅⟩ := h
  have hget : ∀ {V : Type} (m : GoMap V) (k : Nat),
      mapGet (mapDelete m id) k = if k = id then none else mapGet m k := by
    intro V m k
    by_cases hk : k = id
    · subst hk; simp [mapGet_mapDelete_self]
    · simp [hk, mapGet_mapDelete_ne _ _ _ hk]
  refine ⟨?_, ?_, ?_, ?_, ?_⟩
  · intro k
    simp only [windowOf, OnMonitorDelete, hget]
    split_ifs
    · left; rfl
    · exact h₁ k
  · intro k
    simp only [indexOf, OnMonitorDelete, hget]
    split_ifs
    · simp [CurrentStatusSize]
    · exact h₂ k
  · intro k
    simp only [currentUpOf, currentDownOf, OnMonitorDelete, hget]
    split_ifs
    · simp
    · exact h₃ k
  · intro k m hk
    simp only [OnMonitorDelete, hget] at hk
    simp only [windowOf, OnMonitorDelete, hget]
    split_ifs at hk ⊢ with hkid
    exact h₄ k m hk
  · intro k m hk
    simp only [OnMonitorDelete, hget] at hk
    split_ifs at hk
    exact h₅ k m hk

/-- A read after a write, for any key. -/
theorem mapGet_mapSet {V : Type} (m : GoMap V) (id k : Nat) (v : V) :
    mapGet (mapSet m id v) k = if k = id then some v else mapGet m k := by
  by_cases hk : k = id
  · subst hk; simp [mapGet_mapSet_self]
  · simp [hk, mapGet_mapSet_ne _ _ _ _ hk]

/-- No window has more filled slots than slots. -/
theorem filledSlots_le_length (w : List MonitorHistory) : filledSlots w ≤ w.length :=
  List.countP_le_length _

/-- Under the invariant an iteration of the worker does not panic, and it keeps the
invariant. -/
theorem workerStep_inv (T : TimeLib) (ss : ServiceSentinel) (r : ReportData) (c : Tick)
    (h : SentinelInv ss) :
    ∃ ss' out, workerStep T ss r c = some (ss', out) ∧ SentinelInv ss' := by
  by_cases hg : ((mapGet ss.monitors r.Data.Id).getD Monitor.zero).ID = 0
  · exact ⟨ss, StepOutput.empty, by unfold workerStep; rw [if_pos hg], h⟩
  · obtain ⟨h₁, h₂, h₃, h₄, h₅⟩ := h
    cases hm : mapGet ss.monitors r.Data.Id with
    | none => rw [hm] at hg; exact absurd rfl hg
    | some mon =>
      rw [hm] at hg
      obtain ⟨hlen, today, ht⟩ := h₄ _ _ hm
      have hi : indexOf ss r.Data.Id < (windowOf ss r.Data.Id).length := by
        rw [hlen]; exact h₂ _
      obtain ⟨ss', out, hstep, hmon, htoday, _, hdata, hindex, hup, hdown, _⟩ :=
        workerStep_known T ss r c mon today hm hg ht hi
      have hwin : ∀ k, windowOf ss' k = if k = r.Data.Id then
          (windowOf ss r.Data.Id).set (indexOf ss r.Data.Id) (PB2MonitorHistory r.Data)
          else windowOf ss k := by
        intro k
        rw [windowOf, hdata, mapGet_mapSet]
        split_ifs <;> rfl
      refine ⟨ss', out, hstep, ?_, ?_, ?_, ?_, ?_⟩
      · intro k
        rw [hwin]
        split_ifs
        · right; rw [List.length_set]; exact hlen
        · exact h₁ k
      · intro k
        rw [indexOf, hindex, mapGet_mapSet]
        have := h₂ r.Data.Id
        by_cases hk : k = r.Data.Id
        · rw [if_pos hk]
          simp only [Option.getD_some]
          unfold CurrentStatusSize at this ⊢
          split_ifs <;> omega
        · rw [if_neg hk]
          exact h₂ k
      · intro k
        rw [currentUpOf, currentDownOf, hup, hdown, mapGet_mapSet, mapGet_mapSet]
        split_ifs
        · simp only [Option.getD_some]
          rw [recount_sum]
          calc filledSlots _ ≤ _ := filledSlots_le_length _
            _ = CurrentStatusSize := by rw [List.length_set]; exact hlen
        · exact h₃ k
      · intro k m hk
        rw [hmon] at hk
        obtain ⟨hl, t, htk⟩ := h₄ k m hk
        refine ⟨?_, ?_⟩
        · rw [hwin]
          split_ifs
          · rw [List.length_set]; exact hlen
          · exact hl
        · rw [htoday, mapGet_mapSet]
          split_ifs
          · exact ⟨_, rfl⟩
          · exact ⟨t, htk⟩
      · intro k m hk
        rw [hmon] at hk
        exact h₅ k m hk

/-- A fold in the option monad that does not fail keeps what each step keeps. -/
theorem foldlM_option_preserves {σ α : Type} (f : σ → α → Option σ) (P : σ → Prop)
    (hf : ∀ s a s', P s → f s a = some s' → P s') :
    ∀ (l : List α) (s s' : σ), P s → l.foldlM f s = some s' → P s' := by
  intro l
  induction l with
  | nil =>
    intro s s' hs h
    simp only [List.foldlM_nil] at h
    cases h
    exact hs
  | cons a rest ih =>
    intro s s' hs h
    rw [List.foldlM_cons] at h
    cases hfa : f s a with
    | none => rw [hfa] at h; cases h
    | some s1 =>
      rw [hfa] at h
      exact ih s1 s' (hf s a s1 hs hfa) h

/-- The state built by `NewServiceSentinel` satisfies the invariant. -/
theorem NewServiceSentinel_inv (db : Store) (today : Int) (nowDate : String)
    (ss : ServiceSentinel) (h : NewServiceSentinel db today nowDate = some ss) :
    SentinelInv ss := by
  have h0 : SentinelInv (OnMonitorUpdate emptySentinel db.monitors) :=
    OnMonitorUpdate_inv emptySentinel db.monitors
      (fun k => Or.inl rfl) (fun k => by simp [indexOf, emptySentinel, mapGet, CurrentStatusSize])
      (fun k => by simp [currentUpOf, currentDownOf, emptySentinel, mapGet])
  unfold NewServiceSentinel at h
  simp only at h
  cases hl : (db.histories.filter (fun h => decide (today ≤ h.CreatedAt))).foldlM loadTodayRow
      ((OnMonitorUpdate emptySentinel db.monitors).serviceStatusToday, []) with
  | none => rw [hl] at h; cases h
  | some loaded =>
    rw [hl] at h
    simp only at h
    cases hd : (mapKeys loaded.2).foldlM (setTodayDelay loaded.2) loaded.1 with
    | none => rw [hd] at h; cases h
    | some statusToday =>
      rw [hd] at h
      simp only [Option.some.injEq] at h
      subst h
      have hp1 : ∀ k, mapGet (OnMonitorUpdate emptySentinel db.monitors).serviceStatusToday k
          ≠ none → mapGet loaded.1 k ≠ none :=
        foldlM_option_preserves loadTodayRow
          (fun acc => ∀ k,
            mapGet (OnMonitorUpdate emptySentinel db.monitors).serviceStatusToday k ≠ none →
            mapGet acc.1 k ≠ none)
          (by
            intro s a s' hs hf k hk
            unfold loadTodayRow at hf
            cases hg : mapGet s.1 a.MonitorID with
            | none => rw [hg] at hf; cases hf
            | some t =>
              rw [hg] at hf
              simp only at hf
              split_ifs at hf <;>
                (cases hf; simp only [mapGet_mapSet]; split_ifs <;> simp [hs k hk]))
          _ _ _ (fun k hk => hk) hl
      have hp2 : ∀ k, mapGet loaded.1 k ≠ none → mapGet statusToday k ≠ none :=
        foldlM_option_preserves (setTodayDelay loaded.2)
          (fun td => ∀ k, mapGet loaded.1 k ≠ none → mapGet td k ≠ none)
          (by
            intro s a s' hs hf k hk
            unfold setTodayDelay at hf
            cases hg : mapGet s a with
            | none => rw [hg] at hf; cases hf
            | some t =>
              rw [hg] at hf
              cases hf
              simp only [mapGet_mapSet]
              split_ifs <;> simp [hs k hk])
          _ _ _ (fun k hk => hk) hd
      obtain ⟨h₁, h₂, h₃, h₄, h₅⟩ := h0
      refine ⟨h₁, h₂, h₃, ?_, h₅⟩
      intro k m hk
      obtain ⟨hl', t, htk⟩ := h₄ k m hk
      refine ⟨hl', ?_⟩
      have := hp2 k (hp1 k (by rw [htk]; simp))
      cases hst : mapGet statusToday k with
      | none => exact absurd hst this
      | some t' => exact ⟨t', rfl⟩

/-- Every reachable state satisfies the invariant. -/
theorem reachable_inv (T : TimeLib) (ss : ServiceSentinel) (h : Reachable T ss) :
    SentinelInv ss := by
  induction h with
  | init db today nowDate ss hnew => exact NewServiceSentinel_inv db today nowDate ss hnew
  | update ss monitors _ ih => exact OnMonitorUpdate_inv ss monitors ih.1 ih.2.1 ih.2.2.1
  | delete ss cache id _ ih => exact OnMonitorDelete_inv ss cache id ih
  | step ss ss' r c out _ hstep ih =>
    obtain ⟨ss'', out', hstep', hinv⟩ := workerStep_inv T ss r c ih
    rw [hstep] at hstep'
    cases hstep'
    exact hinv

/-- C19 (window and index invariant): in every state reachable from the state built
by `NewServiceSentinel` through `OnMonitorUpdate`, `OnMonitorDelete` and iterations
of the worker, each taken as one step, every monitor of the catalog has a window of
exactly 30 slots, a today-stats record, an index below 30 and counters that add up
to at most 30; and no iteration of the worker on such a state panics. -/
theorem reachable_window_index (T : TimeLib) (ss : ServiceSentinel) (h : Reachable T ss) :
    (∀ k m, mapGet ss.monitors k = some m →
      (windowOf ss k).length = 30 ∧
      (∃ t, mapGet ss.serviceStatusToday k = some t) ∧
      indexOf ss k < 30 ∧
      currentUpOf ss k + currentDownOf ss k ≤ 30) ∧
    (∀ r c, ∃ ss' out, workerStep T ss r c = some (ss', out)) := by
  have hinv := reachable_inv T ss h
  refine ⟨?_, ?_⟩
  · intro k m hk
    obtain ⟨_, h₂, h₃, h₄, _⟩ := hinv
    exact ⟨(h₄ k m hk).1, (h₄ k m hk).2, h₂ k, h₃ k⟩
  · intro r c
    obtain ⟨ss', out, hstep, _⟩ := workerStep_inv T ss r c hinv
    exact ⟨ss', out, hstep⟩

/-- Witness of C19: the state after start-up, an update of the catalog and the
deletion of monitor 1. -/
theorem reachable_window_index_witness :
    (∀ k m, mapGet (OnMonitorDelete (OnMonitorUpdate exampleStarted exampleCatalog) none 1).1.monitors
        k = some m →
      (windowOf (OnMonitorDelete (OnMonitorUpdate exampleStarted exampleCatalog) none 1).1 k).length
        = 30 ∧
      (∃ t, mapGet
        (OnMonitorDelete (OnMonitorUpdate exampleStarted exampleCatalog) none 1).1.serviceStatusToday
        k = some t) ∧
      indexOf (OnMonitorDelete (OnMonitorUpdate exampleStarted exampleCatalog) none 1).1 k < 30 ∧
      currentUpOf (OnMonitorDelete (OnMonitorUpdate exampleStarted exampleCatalog) none 1).1 k
        + currentDownOf (OnMonitorDelete (OnMonitorUpdate exampleStarted exampleCatalog) none 1).1 k
        ≤ 30) ∧
    (∀ r c, ∃ ss' out,
      workerStep exampleLib (OnMonitorDelete (OnMonitorUpdate exampleStarted exampleCatalog) none 1).1
        r c = some (ss', out)) :=
  reachable_window_index exampleLib
    (OnMonitorDelete (OnMonitorUpdate exampleStarted exampleCatalog) none 1).1
    (Reachable.delete _ none 1
      (Reachable.update _ exampleCatalog
        (Reachable.init exampleStore (900 * dayNanos) "04-Nov-26" exampleStarted (by decide))))

end Nezha
